import Mathlib

/-!
Shallow embedding of the report calculation engine
(`scripts/calculation_engine.py`) and proofs about its behaviour.

Modelling conventions:
* Python numbers (ints and floats together) are `PyNum`: rationals kept in
  lowest terms with a positive denominator, built only through the
  normalizing constructor `pnMk`, so that structural equality is value
  equality and every operation evaluates inside the kernel.
* Python runtime values are `PyVal`: `None`, numbers, strings, booleans,
  datetimes (modelled as an integer day number), and lists of scalars
  (the engine's Airtable lookup lists never nest).
* Python dicts keyed by strings are association lists (`PyDict`); assignment
  replaces the value of an existing key and otherwise appends.
* Python string methods (`strip`, `replace`, `split`, ...) are modelled by
  the `py`-prefixed helpers below, defined structurally over `List Char`.
* Exceptions are `Except` values; a caught exception corresponds to matching
  on the `.error` branch at the call site that has the `try`/`except`.
* The external Airtable tables read by the engine are an `Env` record passed
  explicitly: the per-client `Client_Variables` row and the
  `Generated_Reports` records.  Date fields of those records are modelled
  as day numbers (`PyVal.date`).
-/

namespace CalcEngine

set_option synthInstance.maxSize 512
set_option synthInstance.maxHeartbeats 1000000

instance {ε α : Type} [DecidableEq ε] [DecidableEq α] : DecidableEq (Except ε α) := fun a b =>
  match a, b with
  | .ok x, .ok y => if h : x = y then .isTrue (by rw [h]) else .isFalse (by simp [h])
  | .error x, .error y => if h : x = y then .isTrue (by rw [h]) else .isFalse (by simp [h])
  | .ok _, .error _ => .isFalse (by simp)
  | .error _, .ok _ => .isFalse (by simp)

/-- A Python number (int or float): a rational in lowest terms with positive
denominator.  Always built through `pnMk`, so equality is structural. -/
structure PyNum where
  n : ℤ
  d : ℕ
  deriving DecidableEq

/-- Normalizing constructor: `pnMk n d` is the fraction `n / d` in lowest
terms (callers never pass `d = 0`; that case defaults to `0`). -/
def pnMk (n d : ℤ) : PyNum :=
  let n' : ℤ := if d < 0 then -n else n
  let d' : ℕ := d.natAbs
  let g : ℕ := Nat.gcd n'.natAbs d'
  if g = 0 then ⟨0, 1⟩ else ⟨n' / (g : ℤ), d' / g⟩

/-- Embed an integer. -/
def pnInt (z : ℤ) : PyNum := ⟨z, 1⟩

def pnAdd (a b : PyNum) : PyNum := pnMk (a.n * b.d + b.n * a.d) (a.d * b.d)

def pnNeg (a : PyNum) : PyNum := ⟨-a.n, a.d⟩

def pnSub (a b : PyNum) : PyNum := pnAdd a (pnNeg b)

def pnMul (a b : PyNum) : PyNum := pnMk (a.n * b.n) (a.d * b.d)

/-- Division; callers guard against a zero divisor. -/
def pnDiv (a b : PyNum) : PyNum := pnMk (a.n * b.d) (a.d * b.n)

def pnAbs (a : PyNum) : PyNum := ⟨|a.n|, a.d⟩

/-- `a ≤ b` as a boolean (denominators are positive). -/
def pnLeb (a b : PyNum) : Bool := a.n * (b.d : ℤ) ≤ b.n * (a.d : ℤ)

/-- `a < b` as a boolean. -/
def pnLtb (a b : PyNum) : Bool := a.n * (b.d : ℤ) < b.n * (a.d : ℤ)

/-- Python `int(x)` on a number: truncate toward zero. -/
def pnTrunc (a : PyNum) : ℤ := a.n.tdiv a.d

/-- A scalar Python value, as found inside an Airtable lookup list.
(The engine's data never nests lists inside lists.) -/
inductive PyLeaf where
  | none
  | num (q : PyNum)
  | str (s : String)
  | bool (b : Bool)
  | date (d : ℤ)
  deriving DecidableEq

/-- Python runtime values flowing through the calculation engine. -/
inductive PyVal where
  | none
  | num (q : PyNum)
  | str (s : String)
  | bool (b : Bool)
  | date (d : ℤ)
  | pylist (vs : List PyLeaf)
  deriving DecidableEq

/-- View a scalar leaf as a value. -/
def PyLeaf.toVal : PyLeaf → PyVal
  | .none => .none
  | .num q => .num q
  | .str s => .str s
  | .bool b => .bool b
  | .date d => .date d

/-- A Python dict keyed by strings, e.g. a record's `fields`. -/
abbrev PyDict := List (String × PyVal)

/-- Python dict assignment `d[k] = v`: replace an existing binding, else append. -/
def dictInsert (d : PyDict) (k : String) (v : PyVal) : PyDict :=
  if d.any (fun p => p.1 == k) then
    d.map (fun p => if p.1 == k then (k, v) else p)
  else d ++ [(k, v)]

/-- Python `d.update(e)`: insert every binding of `e` into `d`, in order. -/
def dictUpdate (d e : PyDict) : PyDict :=
  e.foldl (fun acc p => dictInsert acc p.1 p.2) d

/-- Python truthiness of a value (`if value:`). -/
def pyTruthy : PyVal → Bool
  | .none => false
  | .num q => q.n != 0
  | .str s => s ≠ ""
  | .bool b => b
  | .date _ => true
  | .pylist vs => !vs.isEmpty

/-- `extract_lookup_value` (calculation_engine.py:45-48): unwrap a
single-element Airtable lookup list. -/
def extract_lookup_value : PyVal → PyVal
  | .pylist vs => ((vs.head?).map PyLeaf.toVal).getD .none
  | v => v

/-! ### Python string primitives, modelled structurally -/

/-- Python's notion of whitespace for `str.strip`. -/
def pyWS (c : Char) : Bool := c.isWhitespace

/-- Python `str.strip()` on a character list. -/
def pyStripChars (cs : List Char) : List Char :=
  ((cs.dropWhile pyWS).reverse.dropWhile pyWS).reverse

/-- Python `str.strip()`. -/
def pyStrip (s : String) : String := ⟨pyStripChars s.data⟩

/-- One pass of Python `str.replace` over a character list (all
non-overlapping occurrences, left to right); `fuel` bounds recursion. -/
def pyReplaceChars (pat rep : List Char) : ℕ → List Char → List Char
  | 0, l => l
  | _ + 1, [] => []
  | fuel + 1, c :: cs =>
    if pat.isPrefixOf (c :: cs) ∧ pat ≠ [] then
      rep ++ pyReplaceChars pat rep fuel (List.drop pat.length (c :: cs))
    else
      c :: pyReplaceChars pat rep fuel cs

/-- Python `s.replace(pat, rep)`. -/
def pyReplace (s pat rep : String) : String :=
  ⟨pyReplaceChars pat.data rep.data (s.data.length + 1) s.data⟩

/-- Does `pat` occur as a substring? (Python `pat in s`.) -/
def containsSub (pat : List Char) : List Char → Bool
  | [] => pat.isEmpty
  | c :: cs => pat.isPrefixOf (c :: cs) || containsSub pat cs

/-- Python `pat in s`. -/
def pyContains (s pat : String) : Bool := containsSub pat.data s.data

/-- Python `s.split(pat)` on character lists (`pat` non-empty). -/
def pySplitChars (pat : List Char) : ℕ → List Char → List (List Char)
  | 0, l => [l]
  | _ + 1, [] => [[]]
  | fuel + 1, c :: cs =>
    if pat.isPrefixOf (c :: cs) ∧ pat ≠ [] then
      [] :: pySplitChars pat fuel (List.drop pat.length (c :: cs))
    else
      match pySplitChars pat fuel cs with
      | [] => [[c]]
      | h :: t => (c :: h) :: t

/-- Python `s.split(pat)`. -/
def pySplit (s pat : String) : List String :=
  (pySplitChars pat.data (s.data.length + 1) s.data).map (fun l => ⟨l⟩)

/-- Python `s.startswith(pat)`. -/
def pyStartsWith (s pat : String) : Bool := pat.data.isPrefixOf s.data

/-- Python `s.endswith(pat)`. -/
def pyEndsWith (s pat : String) : Bool := pat.data.isSuffixOf s.data

/-- Python `s[:-1]`. -/
def pyDropLast (s : String) : String := ⟨s.data.dropLast⟩

/-- Python `s[1:]`. -/
def pyDropFirst (s : String) : String := ⟨s.data.drop 1⟩

/-! ### Number parsing and printing -/

/-- Leading decimal digits of a character list, and the rest. -/
def takeDigits : List Char → List Char × List Char
  | [] => ([], [])
  | c :: cs =>
    if c.isDigit then
      let p := takeDigits cs
      (c :: p.1, p.2)
    else ([], c :: cs)

/-- Decimal digits to a natural number. -/
def digitsToNat (ds : List Char) : ℕ :=
  ds.foldl (fun acc c => 10 * acc + (c.toNat - 48)) 0

/-- Unsigned decimal literal `digits [. digits]` with at least one digit,
mirroring the number strings Python's `float` accepts in this engine's data. -/
def parseUnsignedDecimal (cs : List Char) : Option PyNum :=
  let p := takeDigits cs
  match p.2 with
  | '.' :: rest2 =>
    let pf := takeDigits rest2
    if pf.2 = [] ∧ (p.1 ≠ [] ∨ pf.1 ≠ []) then
      some (pnMk (digitsToNat p.1 * 10 ^ pf.1.length + digitsToNat pf.1) (10 ^ pf.1.length))
    else Option.none
  | [] => if p.1 ≠ [] then some (pnInt (digitsToNat p.1)) else Option.none
  | _ => Option.none

/-- Optionally signed decimal literal. -/
def parseSignedDecimal : List Char → Option PyNum
  | '+' :: cs => parseUnsignedDecimal cs
  | '-' :: cs => (parseUnsignedDecimal cs).map pnNeg
  | cs => parseUnsignedDecimal cs

/-- Python `float(s)` on a string: strip surrounding whitespace, then parse a
signed decimal literal; `Option.none` models a raised `ValueError`. -/
def pyFloatOfString (s : String) : Option PyNum :=
  parseSignedDecimal (pyStripChars s.data)

/-- Python `float(value)`; `Option.none` models a raised
`ValueError`/`TypeError`. -/
def pyFloat : PyVal → Option PyNum
  | .num q => some q
  | .bool b => some (pnInt (if b then 1 else 0))
  | .str s => pyFloatOfString s
  | _ => Option.none

/-- Fractional digits of `r / d` (with `0 < r < d`), up to `fuel` digits,
stopping when the remainder hits zero (how Python prints a float's
fractional part). -/
def fracDigitsLoop (d : ℕ) : ℕ → ℕ → String
  | 0, _ => ""
  | fuel + 1, r =>
    if r = 0 then ""
    else toString (r * 10 / d) ++ fracDigitsLoop d fuel (r * 10 % d)

/-- Python `str` of a number: integers print without a decimal point,
non-integers print (up to 30 digits of) a decimal expansion. -/
def pyNumStr (q : PyNum) : String :=
  if q.d = 1 then toString q.n
  else
    (if q.n < 0 then "-" else "") ++ toString (q.n.natAbs / q.d) ++ "." ++
      fracDigitsLoop q.d 30 (q.n.natAbs % q.d)

/-- Python `str(value)` as used for log traces and text coercion. -/
def pyStrOfVal : PyVal → String
  | .none => "None"
  | .num q => pyNumStr q
  | .str s => s
  | .bool b => if b then "True" else "False"
  | .date d => "datetime(" ++ toString d ++ ")"
  | .pylist _ => "[...]"

/-! ### ConversionTracker and safe_percentage_conversion -/

/-- One entry of the `ConversionTracker`'s log (timestamp omitted). -/
structure ConversionLogEntry where
  variable_name : String
  stage : String
  original : PyVal
  converted : PyVal
  deriving DecidableEq

/-- `ConversionTracker` (calculation_engine.py:51-79): the set of variable
names already converted from percentage to decimal form, plus a log. -/
structure ConversionTracker where
  converted_variables : List String
  conversion_log : List ConversionLogEntry
  deriving DecidableEq

/-- `ConversionTracker.is_converted`. -/
def ConversionTracker.is_converted (t : ConversionTracker) (variable_name : String) : Bool :=
  t.converted_variables.contains variable_name

/-- `ConversionTracker.mark_converted`. -/
def ConversionTracker.mark_converted (t : ConversionTracker) (variable_name stage : String)
    (original converted : PyVal) : ConversionTracker :=
  { converted_variables := t.converted_variables ++ [variable_name]
    conversion_log := t.conversion_log ++ [⟨variable_name, stage, original, converted⟩] }

/-- `ConversionTracker.reset_for_new_calculation`. -/
def ConversionTracker.reset_for_new_calculation (_ : ConversionTracker) : ConversionTracker :=
  ⟨[], []⟩

/-- The numeric arm of `safe_percentage_conversion`
(calculation_engine.py:104-123): `float(value)`, divide by 100 when the
number is ≥ 1 (marking the variable converted), return unchanged otherwise;
an unparsable value is returned unchanged (`except (ValueError, TypeError)`). -/
def spcNumericArm (value : PyVal) (variable_name current_stage : String)
    (tracker : ConversionTracker) : Except String (PyVal × Bool × ConversionTracker) :=
  match pyFloat value with
  | some numeric_value =>
    if pnLeb (pnInt 1) numeric_value then
      let converted_value := pnDiv numeric_value (pnInt 100)
      .ok (.num converted_value, true,
        tracker.mark_converted variable_name current_stage value (.num converted_value))
    else
      .ok (.num numeric_value, false, tracker)
  | Option.none => .ok (value, false, tracker)

/-- `safe_percentage_conversion` (calculation_engine.py:82-123).
Returns the pair `(converted_value, was_converted)` of the source together
with the updated tracker; `.error` models an uncaught exception escaping the
function (`float` on a `%`-suffixed string with a non-numeric body, or
`float(value)` failing in the already-converted branch). -/
def safe_percentage_conversion (value : PyVal) (variable_name current_stage : String)
    (tracker : ConversionTracker) : Except String (PyVal × Bool × ConversionTracker) :=
  match value with
  | .none => .ok (.none, false, tracker)
  | v =>
    if tracker.is_converted variable_name then
      match pyFloat v with
      | some q => .ok (.num q, false, tracker)
      | Option.none => .error "could not convert already-converted value to float"
    else
      match v with
      | .str s =>
        if pyEndsWith (pyStrip s) "%" then
          match pyFloatOfString (pyDropLast (pyStrip s)) with
          | some q =>
            .ok (.num (pnDiv q (pnInt 100)), true,
              tracker.mark_converted variable_name current_stage (.str s)
                (.num (pnDiv q (pnInt 100))))
          | Option.none => .error "could not convert percentage string to float"
        else spcNumericArm (.str s) variable_name current_stage tracker
      | v => spcNumericArm v variable_name current_stage tracker

/-! ### Formula evaluation -/

/-- Split a character list at the first `'}'` (content before, rest after). -/
def findBraceSplit : List Char → Option (List Char × List Char)
  | [] => Option.none
  | '}' :: cs => some ([], cs)
  | c :: cs => (findBraceSplit cs).map (fun p => (c :: p.1, p.2))

/-- Scanner behind `findPlaceholders`; `fuel` bounds recursion. -/
def findPlaceholdersAux : ℕ → List Char → List String
  | 0, _ => []
  | _ + 1, [] => []
  | fuel + 1, c :: cs =>
    if c = '{' then
      match findBraceSplit cs with
      | some (body, rest) =>
        if body.isEmpty then findPlaceholdersAux fuel cs
        else (⟨body⟩ : String) :: findPlaceholdersAux fuel rest
      | Option.none => findPlaceholdersAux fuel cs
    else findPlaceholdersAux fuel cs

/-- All placeholder names of a formula, in order, as found by the source's
`re.findall` of braced groups with a non-empty body. -/
def findPlaceholders (s : String) : List String :=
  findPlaceholdersAux (s.data.length + 1) s.data

/-- Tokens of the sanitized arithmetic expression handed to Python `eval`. -/
inductive ATok where
  | num (q : PyNum)
  | plus
  | minus
  | star
  | slash
  | lparen
  | rparen
  deriving DecidableEq

/-- Leading number characters (digits and dots) of a character list. -/
def takeNumChars : List Char → List Char × List Char
  | [] => ([], [])
  | c :: cs =>
    if c.isDigit ∨ c = '.' then
      let p := takeNumChars cs
      (c :: p.1, p.2)
    else ([], c :: cs)

/-- Tokenizer for sanitized arithmetic expressions; `Option.none` models a
Python `SyntaxError` from `eval`. -/
def tokenizeArith : ℕ → List Char → Option (List ATok)
  | 0, _ => Option.none
  | _ + 1, [] => some []
  | fuel + 1, c :: cs =>
    if pyWS c then tokenizeArith fuel cs
    else if c = '+' then (tokenizeArith fuel cs).map (.plus :: ·)
    else if c = '-' then (tokenizeArith fuel cs).map (.minus :: ·)
    else if c = '*' then (tokenizeArith fuel cs).map (.star :: ·)
    else if c = '/' then (tokenizeArith fuel cs).map (.slash :: ·)
    else if c = '(' then (tokenizeArith fuel cs).map (.lparen :: ·)
    else if c = ')' then (tokenizeArith fuel cs).map (.rparen :: ·)
    else if c.isDigit ∨ c = '.' then
      let p := takeNumChars (c :: cs)
      match parseUnsignedDecimal p.1 with
      | some q => (tokenizeArith fuel p.2).map (.num q :: ·)
      | Option.none => Option.none
    else Option.none

/-- Abstract syntax of the arithmetic expressions Python `eval` sees after
the sanitize check (`+ - * /`, parentheses, unary signs, number literals). -/
inductive AExpr where
  | lit (q : PyNum)
  | pos (e : AExpr)
  | neg (e : AExpr)
  | add (a b : AExpr)
  | sub (a b : AExpr)
  | mul (a b : AExpr)
  | div (a b : AExpr)
  deriving DecidableEq

mutual

/-- `expr := term (('+'|'-') term)*` -/
def parseE : ℕ → List ATok → Option (AExpr × List ATok)
  | 0, _ => Option.none
  | fuel + 1, ts =>
    match parseT fuel ts with
    | some (e, rest) => parseESuffix fuel e rest
    | Option.none => Option.none

def parseESuffix : ℕ → AExpr → List ATok → Option (AExpr × List ATok)
  | 0, _, _ => Option.none
  | fuel + 1, acc, .plus :: ts =>
    match parseT fuel ts with
    | some (e, rest) => parseESuffix fuel (.add acc e) rest
    | Option.none => Option.none
  | fuel + 1, acc, .minus :: ts =>
    match parseT fuel ts with
    | some (e, rest) => parseESuffix fuel (.sub acc e) rest
    | Option.none => Option.none
  | _ + 1, acc, ts => some (acc, ts)

/-- `term := factor (('*'|'/') factor)*` -/
def parseT : ℕ → List ATok → Option (AExpr × List ATok)
  | 0, _ => Option.none
  | fuel + 1, ts =>
    match parseF fuel ts with
    | some (e, rest) => parseTSuffix fuel e rest
    | Option.none => Option.none

def parseTSuffix : ℕ → AExpr → List ATok → Option (AExpr × List ATok)
  | 0, _, _ => Option.none
  | fuel + 1, acc, .star :: ts =>
    match parseF fuel ts with
    | some (e, rest) => parseTSuffix fuel (.mul acc e) rest
    | Option.none => Option.none
  | fuel + 1, acc, .slash :: ts =>
    match parseF fuel ts with
    | some (e, rest) => parseTSuffix fuel (.div acc e) rest
    | Option.none => Option.none
  | _ + 1, acc, ts => some (acc, ts)

/-- `factor := ('+'|'-')* (number | '(' expr ')')` -/
def parseF : ℕ → List ATok → Option (AExpr × List ATok)
  | 0, _ => Option.none
  | fuel + 1, .minus :: ts => (parseF fuel ts).map (fun p => (.neg p.1, p.2))
  | fuel + 1, .plus :: ts => (parseF fuel ts).map (fun p => (.pos p.1, p.2))
  | _ + 1, .num q :: ts => some (.lit q, ts)
  | fuel + 1, .lparen :: ts =>
    (match parseE fuel ts with
     | some (e, .rparen :: rest) => some (e, rest)
     | _ => Option.none)
  | _ + 1, _ => Option.none

end

/-- Evaluate an arithmetic expression; `.error ()` models a raised
`ZeroDivisionError`. -/
def evalA : AExpr → Except Unit PyNum
  | .lit q => .ok q
  | .pos e => evalA e
  | .neg e =>
    match evalA e with
    | .ok q => .ok (pnNeg q)
    | .error u => .error u
  | .add a b =>
    match evalA a, evalA b with
    | .ok x, .ok y => .ok (pnAdd x y)
    | .error u, _ => .error u
    | _, .error u => .error u
  | .sub a b =>
    match evalA a, evalA b with
    | .ok x, .ok y => .ok (pnSub x y)
    | .error u, _ => .error u
    | _, .error u => .error u
  | .mul a b =>
    match evalA a, evalA b with
    | .ok x, .ok y => .ok (pnMul x y)
    | .error u, _ => .error u
    | _, .error u => .error u
  | .div a b =>
    match evalA a, evalA b with
    | .ok x, .ok y => if y.n = 0 then .error () else .ok (pnDiv x y)
    | .error u, _ => .error u
    | _, .error u => .error u

/-- Outcome of Python `eval` on a sanitized arithmetic expression. -/
inductive EvalOutcome where
  | val (q : PyNum)
  | zeroDiv
  | err (msg : String)
  deriving DecidableEq

/-- Python `eval(expression)` restricted to the post-sanitize arithmetic
grammar: tokenize, parse, evaluate; `zeroDiv` is `ZeroDivisionError`, `err`
any other exception. -/
def pyEval (s : String) : EvalOutcome :=
  match tokenizeArith (s.data.length + 1) s.data with
  | Option.none => .err "invalid syntax"
  | some toks =>
    match parseE ((toks.length + 1) * 4) toks with
    | some (e, []) =>
      match evalA e with
      | .ok q => .val q
      | .error _ => .zeroDiv
    | _ => .err "invalid syntax"

/-- Characters accepted by the sanitize regex
(calculation_engine.py:620). -/
def allowedFormulaChar (c : Char) : Bool :=
  c.isDigit || c = '.' || c = '+' || c = '-' || c = '*' || c = '/' ||
    c = '(' || c = ')' || c.isWhitespace

/-- Post-substitution normalization (calculation_engine.py:616-619):
rewrite the spaced multiplication aliases, strip, drop a leading `=`. -/
def normalizeExpr (e : String) : String :=
  let e1 := pyStrip (pyReplace (pyReplace e " x " " * ") " X " " * ")
  if pyStartsWith e1 "=" then pyStrip (pyDropFirst e1) else e1

/-- The 4-tuple returned by the source's `evaluate_formula`:
`(result, error_message, evaluated_expression, variable_values_list)`. -/
structure FormulaOutput where
  result : Option PyNum
  error : Option String
  expression : Option String
  var_values : Option (List String)
  deriving DecidableEq

/-- The placeholder-substitution loop of `evaluate_formula`
(calculation_engine.py:580-615): for each placeholder, require a present,
non-`None` value; unwrap lookup lists; convert percentage-typed values
through the tracker; clean and parse numeric strings; record a trace; and
splice the numeric literal into the expression text.  `.error` carries the
quadruple returned early (with the tracker state at that point); `.ok`
carries the final expression, traces and tracker.  The model corresponds to
the call sites that pass a context (all call sites in the engine do). -/
def evalFormulaLoop (values : PyDict) (variable_types : List (String × String)) :
    List String → String → List String → ConversionTracker →
    Except (FormulaOutput × ConversionTracker)
      (String × List String × ConversionTracker)
  | [], expr, traces, tr => .ok (expr, traces, tr)
  | p :: rest, expr, traces, tr =>
    match values.lookup p with
    | Option.none =>
      .error (⟨Option.none, some ("Missing required variable: " ++ p),
        Option.none, Option.none⟩, tr)
    | some v0 =>
      if v0 = .none then
        .error (⟨Option.none, some ("Missing required variable: " ++ p),
          Option.none, Option.none⟩, tr)
      else
        let v1 := extract_lookup_value v0
        match (if variable_types.lookup p = some "percentage" then
                 safe_percentage_conversion v1 p "evaluate_formula" tr
               else .ok (v1, false, tr)) with
        | .error e =>
          .error (⟨Option.none, some ("Formula parsing error: " ++ e),
            Option.none, Option.none⟩, tr)
        | .ok (v2, _, tr2) =>
          let v3 := match v2 with
            | .str s =>
              let value_clean := pyStrip (pyReplace s "," "")
              if value_clean = "" then PyVal.none
              else
                match pyFloatOfString value_clean with
                | some q => PyVal.num q
                | Option.none => PyVal.str s
            | v => v
          let traces2 := traces ++ [p ++ "=" ++ pyStrOfVal v3]
          match v3 with
          | .num q =>
            evalFormulaLoop values variable_types rest
              (pyReplace expr ("\x7b" ++ p ++ "\x7d") (pyNumStr q)) traces2 tr2
          | .bool b =>
            evalFormulaLoop values variable_types rest
              (pyReplace expr ("\x7b" ++ p ++ "\x7d") (if b then "True" else "False"))
              traces2 tr2
          | v =>
            .error (⟨Option.none, some ("Non-numeric value for " ++ p ++ ": " ++ pyStrOfVal v),
              Option.none, Option.none⟩, tr2)

/-- `evaluate_formula` (calculation_engine.py:564-632).  Returns the
source's quadruple together with the tracker (the context's tracker is
mutated in place in the source).  The print-only `variable_name` parameter
and the unused `calculated_values` parameter are omitted. -/
def evaluate_formula (formula : String) (values : PyDict)
    (variable_types : List (String × String)) (tracker : ConversionTracker) :
    FormulaOutput × ConversionTracker :=
  if formula = "" then
    (⟨Option.none, some "No formula provided", Option.none, Option.none⟩, tracker)
  else
    match evalFormulaLoop values variable_types (findPlaceholders formula) formula [] tracker with
    | .error r => r
    | .ok (expr0, traces, tr) =>
      let expression := normalizeExpr expr0
      if expression ≠ "" ∧ expression.data.all allowedFormulaChar then
        match pyEval expression with
        | .val q => (⟨some q, Option.none, some expression, some traces⟩, tr)
        | .zeroDiv =>
          (⟨some (pnInt 0), some ("Division by zero in formula: " ++ formula),
            some expression, some traces⟩, tr)
        | .err e =>
          (⟨Option.none, some ("Evaluation error: " ++ e),
            some expression, some traces⟩, tr)
      else
        (⟨Option.none, some ("Invalid characters in formula: " ++ expression),
          Option.none, Option.none⟩, tr)

/-! ### Calculation context, variable catalog and external environment -/

/-- Metadata dict returned by `calculate_ytd_value` (the `debug_info`
sub-dict, which only echoes counters, is omitted). -/
structure YTDMeta where
  reason : Option String
  months : List (String × PyVal)
  ytd_value : PyVal
  current_month_hhs : Option PyVal
  deriving DecidableEq

/-- One entry of the context's calculation log. -/
inductive CalcLogEntry where
  | formulaEntry (variable_name formula : String) (result : Option PyNum) (level : ℕ)
      (expression : Option String) (var_values : Option (List String))
  | ytdEntry (variable_name : String) (result : PyVal) (metadata : YTDMeta)
  deriving DecidableEq

/-- One entry of the context's fallback log (timestamp omitted). -/
structure FallbackLogEntry where
  variable_name : String
  value : PyVal
  source : String
  deriving DecidableEq

/-- One hard- or soft-validation flag. -/
structure ValidationFlag where
  variable_name : String
  value : PyVal
  message : String
  flag_type : String
  deriving DecidableEq

/-- `CalculationContext` (calculation_engine.py:164-242).  The fields
derived in `__init__` from the report record (`client_id`,
`client_record_id`, the date window, `report_month`/`report_year`) are plain
fields here; the constructor's lookup-unwrapping and ISO-date parsing are
outside the modelled claims. -/
structure CalculationContext where
  client_id : String
  client_record_id : Option String
  date_start : PyVal
  date_end : PyVal
  raw_data : PyDict
  report_month : Option ℤ
  report_year : Option ℤ
  calculated_values : PyDict
  fallback_log : List FallbackLogEntry
  calculation_log : List CalcLogEntry
  errors : List String
  warnings : List String
  ytd_metadata : List (String × YTDMeta)
  validation_flags : List ValidationFlag
  expected_flags : List ValidationFlag
  conversion_tracker : ConversionTracker
  deriving DecidableEq

/-- `CalculationContext.add_value` (calculation_engine.py:204-213): store the
value; a non-`"calculated"` source also appends a fallback-log entry. -/
def CalculationContext.add_value (c : CalculationContext) (variable_name : String)
    (value : PyVal) (source : String) : CalculationContext :=
  { c with
    calculated_values := dictInsert c.calculated_values variable_name value
    fallback_log :=
      if source ≠ "calculated" then c.fallback_log ++ [⟨variable_name, value, source⟩]
      else c.fallback_log }

/-- The known lookup fields (calculation_engine.py:220-223). -/
def lookup_fields : List String :=
  ["quote_starts", "sms_clicks", "phone_clicks", "total_leads", "conversions", "cost",
   "search_impression_share", "search_lost_IS_budget"]

/-- `CalculationContext.get_value` (calculation_engine.py:215-227). -/
def CalculationContext.get_value (c : CalculationContext) (variable_name : String) : PyVal :=
  match c.calculated_values.lookup variable_name with
  | some v => v
  | Option.none =>
    let raw := (c.raw_data.lookup variable_name).getD .none
    if lookup_fields.contains variable_name then extract_lookup_value raw else raw

/-- `CalculationContext.get_all_values` (calculation_engine.py:229-242). -/
def CalculationContext.get_all_values (c : CalculationContext) : PyDict :=
  let all_values := dictUpdate (dictUpdate [] c.raw_data) c.calculated_values
  lookup_fields.foldl
    (fun d f =>
      match d.lookup f with
      | some v => dictInsert d f (extract_lookup_value v)
      | Option.none => d)
    all_values

/-- A record of the external `Generated_Reports` table. -/
structure GenRecord where
  id : String
  fields : PyDict
  deriving DecidableEq

/-- The external record store: the per-client `Client_Variables` row
(`Option.none` models a failed `table.get`, caught at the call site) and the
`Generated_Reports` records. -/
structure Env where
  client_variables : String → Option PyDict
  generated_reports : List GenRecord

/-- One entry of the variable catalog as preprocessed by
`load_report_variables` (calculation_engine.py:256-269): the raw Airtable
`fields` dict plus the extracted formula, fallback slots and lookback
window (already coerced to an integer there). -/
structure VarConfig where
  fields : PyDict
  formula : String
  fallback_1 : Option String
  fallback_2 : Option String
  previous_period_max : ℤ
  deriving DecidableEq

/-- `var_config.get('fields', {}).get(key, dflt)` for string-valued config
fields such as `Source_Type` and `Data_Type`. -/
def VarConfig.fieldStr (vc : VarConfig) (key dflt : String) : String :=
  match vc.fields.lookup key with
  | some (.str s) => s
  | _ => dflt

/-- Python `str.lower()`. -/
def pyLower (s : String) : String := ⟨s.data.map Char.toLower⟩

/-! ### Previous-period lookup, fallbacks and the resolver -/

/-- Client matching of `find_previous_period_value`
(calculation_engine.py:332-339): membership for list-valued fields,
equality otherwise (the caller has already checked truthiness). -/
def clientFieldMatches (client_field : PyVal) (cid : String) : Bool :=
  match client_field with
  | .pylist vs => vs.contains (.str cid)
  | v => v == .str cid

/-- Insert a dated record into a descending-by-date list, after entries with
an equal date (so the fold below is a stable descending sort, like Python's
`list.sort(reverse=True)`). -/
def insertByDateDesc (x : GenRecord × ℤ) : List (GenRecord × ℤ) → List (GenRecord × ℤ)
  | [] => [x]
  | y :: ys => if y.2 < x.2 then x :: y :: ys else y :: insertByDateDesc x ys

/-- Stable sort by date, most recent first. -/
def sortByDateDesc (l : List (GenRecord × ℤ)) : List (GenRecord × ℤ) :=
  l.foldr insertByDateDesc []

/-- The record filter of `find_previous_period_value`
(calculation_engine.py:329-363): records of the same client, flagged as full
months, whose (unwrapped) `date_end` lies strictly between
`current_date_end - max_months*30` days and the comparison date
(`date_start` when available, else `date_end`), paired with that date. -/
def prevPeriodCandidates (env : Env) (client_id : String)
    (current_date_end : ℤ) (max_months : ℤ) (current_date_start : Option ℤ) :
    List (GenRecord × ℤ) :=
  let min_date := current_date_end - max_months * 30
  let comparison_date := current_date_start.getD current_date_end
  env.generated_reports.filterMap (fun r =>
    let client_field := (r.fields.lookup "client").getD .none
    if !(pyTruthy client_field && clientFieldMatches client_field client_id) then
      Option.none
    else
      let is_full_month := extract_lookup_value ((r.fields.lookup "is_full_month").getD .none)
      if !pyTruthy is_full_month then Option.none
      else
        match extract_lookup_value ((r.fields.lookup "date_end").getD .none) with
        | .date date_end_dt =>
          if date_end_dt < comparison_date ∧ min_date < date_end_dt then
            some (r, date_end_dt)
          else Option.none
        | _ => Option.none)

/-- `find_previous_period_value` (calculation_engine.py:301-376): sort the
matching records most recent first and return the first non-null value of
the requested variable, else `None`.  Record dates are modelled as `.date`
day numbers (the `fromisoformat` branch for ISO strings is the same
comparison after parsing). -/
def find_previous_period_value (env : Env) (variable_name : String) (client_id : String)
    (current_date_end : ℤ) (max_months : ℤ) (current_date_start : Option ℤ) : PyVal :=
  let sorted := sortByDateDesc
    (prevPeriodCandidates env client_id current_date_end max_months current_date_start)
  match sorted.find? (fun rd => !(((rd.1.fields.lookup variable_name).getD .none) == .none)) with
  | some rd => (rd.1.fields.lookup variable_name).getD .none
  | Option.none => .none

/-- `apply_fallback` (calculation_engine.py:379-435).  Pure: returns the
fallback value (`.none` for absent) and the source label.  Context dates are
`.date` day numbers after lookup-unwrapping, as in
`find_previous_period_value`. -/
def apply_fallback (env : Env) (fallback_type : Option String) (variable_name : String)
    (context : CalculationContext) (global_vars : PyDict) (max_periods : ℤ) :
    PyVal × String :=
  let ft := fallback_type.getD ""
  if ft = "" then (.none, "no_fallback")
  else if ft = "0" then (.num (pnInt 0), "zero_fallback")
  else if ft = "previous_period" then
    match extract_lookup_value context.date_end with
    | .date dt_date_end =>
      let dt_date_start : Option ℤ :=
        match extract_lookup_value context.date_start with
        | .date d => some d
        | _ => Option.none
      let value := find_previous_period_value env variable_name context.client_id
        dt_date_end max_periods dt_date_start
      if value ≠ .none then (value, "previous_period(" ++ toString max_periods ++ "mo)")
      else (.none, "fallback_failed(previous_period)")
    | _ => (.none, "invalid_date_end")
  else if ft = "global_default" then
    match global_vars.lookup variable_name with
    | some gv => (gv, "global_default")
    | Option.none => (.none, "fallback_failed(global_default)")
  else if ft = "calculation" then (.none, "calculation_needed")
  else (.none, "fallback_failed(" ++ ft ++ ")")

/-- Type coercion of a `client_static` override
(calculation_engine.py:456-469): percentage through the tracker, number and
currency through `float`, text through `str`; a failed conversion falls back
to the raw value (`except Exception: pass`). -/
def client_static_coerce (client_value0 : PyVal) (data_type : String)
    (variable_name : String) (tracker : ConversionTracker) : PyVal × ConversionTracker :=
  if data_type = "number" ∨ data_type = "currency" ∨ data_type = "percentage" then
    if data_type = "percentage" then
      match safe_percentage_conversion client_value0 variable_name "resolve_value" tracker with
      | .ok (v, _, tr) => (v, tr)
      | .error _ => (client_value0, tracker)
    else
      match pyFloat client_value0 with
      | some q => (.num q, tracker)
      | Option.none => (client_value0, tracker)
  else if data_type = "text" then (.str (pyStrOfVal client_value0), tracker)
  else (client_value0, tracker)

/-- One fallback slot of `resolve_value` (calculation_engine.py:490-558,
identical for slot 1 and slot 2).  `.error (v, ctx)` means the slot produced
value `v` and `resolve_value` returns it with the updated context; `.ok ctx`
means the slot did not produce a value and resolution continues with `ctx`
(whose tracker may have advanced during a failed calculation attempt). -/
def attempt_fallback_slot (env : Env) (variable_name : String) (var_config : VarConfig)
    (global_vars : PyDict) (max_periods : ℤ) (slot : Option String)
    (context : CalculationContext) :
    Except (PyVal × CalculationContext) CalculationContext :=
  if !(match slot with | some s => s ≠ "" | Option.none => false) then .ok context
  else
    let vs := apply_fallback env slot variable_name context global_vars max_periods
    if vs.2 = "calculation_needed" then
      if var_config.formula ≠ "" then
        let all_values := context.get_all_values
        let variable_types := (findPlaceholders var_config.formula).map
          (fun k => (k, var_config.fieldStr "Data_Type" "number"))
        let et := evaluate_formula var_config.formula all_values variable_types
          context.conversion_tracker
        let context := { context with conversion_tracker := et.2 }
        match et.1.result, et.1.error with
        | some r, Option.none =>
          .error (.num r, context.add_value variable_name (.num r) "calculated_fallback")
        | _, _ => .ok context
      else .ok context
    else if vs.1 ≠ .none then
      let data_type := var_config.fieldStr "Data_Type" "number"
      let vt :=
        if data_type = "percentage" then
          match safe_percentage_conversion vs.1 variable_name "apply_fallback"
            context.conversion_tracker with
          | .ok (v, _, tr) => (v, tr)
          | .error _ => (vs.1, context.conversion_tracker)
        else (vs.1, context.conversion_tracker)
      let context := { context with conversion_tracker := vt.2 }
      .error (vt.1, context.add_value variable_name vt.1 vs.2)
    else .ok context

/-- The context carried out of a fallback slot, whichever way it exits. -/
def slotCtx : Except (PyVal × CalculationContext) CalculationContext → CalculationContext
  | .ok c => c
  | .error r => r.2

/-- `resolve_value` (calculation_engine.py:438-561): the `client_static`
override check (which precedes everything else), then the already-resolved
short-circuit, then the two fallback slots.  Returns the resolved value
(`.none` for absent) and the updated context. -/
def resolve_value (env : Env) (variable_name : String) (context : CalculationContext)
    (var_config : VarConfig) (global_vars : PyDict) : PyVal × CalculationContext :=
  let source_type := pyLower (var_config.fieldStr "Source_Type" "")
  let static_result :=
    if source_type = "client_static" then
      match env.client_variables context.client_id with
      | some client_fields =>
        match client_fields.lookup variable_name with
        | some client_value0 =>
          let data_type := var_config.fieldStr "Data_Type" "number"
          let ct := client_static_coerce client_value0 data_type variable_name
            context.conversion_tracker
          let context := { context with conversion_tracker := ct.2 }
          some (ct.1, context.add_value variable_name ct.1 "client_static")
        | Option.none => Option.none
      | Option.none => Option.none
    else Option.none
  match static_result with
  | some r => r
  | Option.none =>
    let existing_value := context.get_value variable_name
    if existing_value ≠ .none then (existing_value, context)
    else
      let max_periods := var_config.previous_period_max
      match attempt_fallback_slot env variable_name var_config global_vars max_periods
        var_config.fallback_1 context with
      | .error r => r
      | .ok context =>
        match attempt_fallback_slot env variable_name var_config global_vars max_periods
          var_config.fallback_2 context with
        | .error r => r
        | .ok context => (.none, context)

/-! ### Validation (validate_value, check_expected_range) -/

/-- `parse_numeric_value` (calculation_engine.py:126-161): numbers pass
through, other values go through `str`, strip, removal of `$`, `,` and
spaces, an optional `%` suffix (divide by 100), then `float`; `.error`
carries the `ValueError` message. -/
def parse_numeric_value : PyVal → Except String PyNum
  | .none => .error "Value is None"
  | .num q => .ok q
  | .bool b => .ok (pnInt (if b then 1 else 0))
  | v =>
    let str_value :=
      pyReplace (pyReplace (pyReplace (pyStrip (pyStrOfVal v)) "$" "") "," "") " " ""
    if pyEndsWith str_value "%" then
      match pyFloatOfString (pyDropLast str_value) with
      | some q => .ok (pnDiv q (pnInt 100))
      | Option.none =>
        .error ("\x27" ++ pyStrOfVal v ++ "\x27 is not a valid number for comparison")
    else
      match pyFloatOfString str_value with
      | some q => .ok q
      | Option.none =>
        .error ("\x27" ++ pyStrOfVal v ++ "\x27 is not a valid number for comparison")

/-- Match `\s+(and|or)\s+` at the head of a character list, returning the
captured operator and the rest after the separator. -/
def matchSepToken (cs : List Char) : Option (String × List Char) :=
  let ws1 := cs.takeWhile pyWS
  if ws1.isEmpty then Option.none
  else
    let cs1 := cs.dropWhile pyWS
    let tryOp := fun (op : List Char) =>
      if op.isPrefixOf cs1 then
        let cs2 := cs1.drop op.length
        if (cs2.takeWhile pyWS).isEmpty then Option.none
        else some (cs2.dropWhile pyWS)
      else Option.none
    match tryOp ['a', 'n', 'd'] with
    | some rest => some ("and", rest)
    | Option.none =>
      match tryOp ['o', 'r'] with
      | some rest => some ("or", rest)
      | Option.none => Option.none

/-- Scanner behind `splitLogical`. -/
def splitLogicalAux : ℕ → List Char → List Char → List (List Char) × List String
  | 0, acc, rest => ([acc.reverse ++ rest], [])
  | _ + 1, acc, [] => ([acc.reverse], [])
  | fuel + 1, acc, c :: cs =>
    match matchSepToken (c :: cs) with
    | some (op, rest) =>
      let p := splitLogicalAux fuel [] rest
      (acc.reverse :: p.1, op :: p.2)
    | Option.none => splitLogicalAux fuel (c :: acc) cs

/-- `re.split(r'\s+(and|or)\s+', expression)` together with the matching
`re.findall`: the condition segments and the operator captures
(calculation_engine.py:1540-1542 and 1622-1624). -/
def splitLogical (s : String) : List String × List String :=
  let p := splitLogicalAux (s.data.length + 1) [] s.data
  (p.1.map (fun l => (⟨l⟩ : String)), p.2)

/-- One comparison condition (calculation_engine.py:1549-1568): the operator
is found by containment in the order `>=, <=, >, <, =`; the threshold is the
text after the first operator occurrence, stripped and parsed; `.error` is
the early `(False, message)` return (unparsable condition) or the caught
`ValueError` of a threshold parse, prefixed with `errPrefix`. -/
def evalCondition (errPrefix : String) (numeric_value : PyNum) (condition : String) :
    Except String Bool :=
  let thresholdAfter := fun (op : String) =>
    pyFloatOfString (pyStrip ((pySplit condition op).getD 1 ""))
  if pyContains condition ">=" then
    match thresholdAfter ">=" with
    | some th => .ok (pnLeb th numeric_value)
    | Option.none => .error (errPrefix ++ "could not convert string to float")
  else if pyContains condition "<=" then
    match thresholdAfter "<=" with
    | some th => .ok (pnLeb numeric_value th)
    | Option.none => .error (errPrefix ++ "could not convert string to float")
  else if pyContains condition ">" then
    match thresholdAfter ">" with
    | some th => .ok (pnLtb th numeric_value)
    | Option.none => .error (errPrefix ++ "could not convert string to float")
  else if pyContains condition "<" then
    match thresholdAfter "<" with
    | some th => .ok (pnLtb numeric_value th)
    | Option.none => .error (errPrefix ++ "could not convert string to float")
  else if pyContains condition "=" then
    match thresholdAfter "=" with
    | some th => .ok (pnLtb (pnAbs (pnSub numeric_value th)) ⟨1, 10000000000⟩)
    | Option.none => .error (errPrefix ++ "could not convert string to float")
  else
    .error (errPrefix ++ "Could not parse condition \x27" ++ condition ++ "\x27")

/-- Evaluate the condition segments in order, skipping segments that strip to
`and`/`or`, stopping at the first error. -/
def evalConditions (errPrefix : String) (numeric_value : PyNum) :
    List String → Except String (List Bool)
  | [] => .ok []
  | c :: cs =>
    if pyStrip c = "and" ∨ pyStrip c = "or" then evalConditions errPrefix numeric_value cs
    else
      match evalCondition errPrefix numeric_value c with
      | .ok b =>
        match evalConditions errPrefix numeric_value cs with
        | .ok bs => .ok (b :: bs)
        | .error e => .error e
      | .error e => .error e

/-- Left-to-right combination of the condition results with the captured
operators (calculation_engine.py:1574-1580). -/
def combineResults (results : List Bool) (operators : List String) : Bool :=
  match results with
  | [] => true
  | r0 :: _ =>
    (List.range operators.length).foldl
      (fun acc i =>
        if i + 1 < results.length then
          if operators.getD i "" = "and" then acc && results.getD (i + 1) false
          else if operators.getD i "" = "or" then acc || results.getD (i + 1) false
          else acc
        else acc)
      r0

/-- `validate_value` (calculation_engine.py:1491-1588): hard validation.
Empty rules or a `None` value pass immediately; then `not_empty`, the
`integer` check, and the comparison grammar. -/
def validate_value (value : PyVal) (validation_rules : String) : Bool × String :=
  if validation_rules = "" ∨ value = .none then (true, "")
  else if validation_rules = "not_empty" then
    if value ≠ .none ∧ pyStrip (pyStrOfVal value) ≠ "" then (true, "")
    else
      (false, "Validation failed: \x27" ++ pyStrOfVal value ++
        "\x27 is empty but should not be")
  else
    let hasInt := pyContains (pyLower validation_rules) "integer"
    match (if hasInt then
        match pyFloat value with
        | some q =>
          if pnInt (pnTrunc q) ≠ q then
            .error ("Validation failed: " ++ pyStrOfVal value ++ " is not an integer")
          else
            .ok (PyVal.num (pnInt (pnTrunc q)),
              pyStrip (pyReplace (pyReplace (pyReplace validation_rules
                "AND integer" "") "integer AND" "") "integer" ""))
        | Option.none =>
          .error ("Validation failed: " ++ pyStrOfVal value ++ " is not a valid integer")
      else (.ok (value, validation_rules) :
        Except String (PyVal × String))) with
    | .error msg => (false, msg)
    | .ok vr =>
      if hasInt ∧ vr.2 = "" then (true, "")
      else
        let expression := pyReplace (pyReplace vr.2 "AND" "and") "OR" "or"
        match parse_numeric_value vr.1 with
        | .error e => (false, "Validation error: " ++ e)
        | .ok numeric_value =>
          let sp := splitLogical expression
          match evalConditions "Validation error: " numeric_value sp.1 with
          | .error e => (false, e)
          | .ok results =>
            if results.isEmpty then (true, "")
            else if combineResults results sp.2 then (true, "")
            else
              (false, "Validation failed: " ++ pyNumStr numeric_value ++
                " does not satisfy \x27" ++ validation_rules ++ "\x27")

/-- `check_expected_range` (calculation_engine.py:1591-1670): soft
validation with the same comparison grammar; `optional`/`not_empty` skip the
check. -/
def check_expected_range (value : PyVal) (expected_values : String) : Bool × String :=
  if expected_values = "" ∨ value = .none then (true, "")
  else if pyLower expected_values = "optional" ∨ pyLower expected_values = "not_empty" then
    (true, "")
  else
    let expression := pyReplace (pyReplace expected_values "AND" "and") "OR" "or"
    match parse_numeric_value value with
    | .error e => (false, "Expected range check error: " ++ e)
    | .ok numeric_value =>
      let sp := splitLogical expression
      match evalConditions "Expected range check error: " numeric_value sp.1 with
      | .error e => (false, e)
      | .ok results =>
        if results.isEmpty then (true, "")
        else if combineResults results sp.2 then (true, "")
        else
          (false, "Outside expected range: " ++ pyNumStr numeric_value ++
            " does not meet \x27" ++ expected_values ++ "\x27")

/-- `validate_all_calculated_values` (calculation_engine.py:1673-1730): run
both validation passes over every calculated value that has a catalog entry,
appending errors (hard) and warnings (soft) and rebuilding the flag lists. -/
def validate_all_calculated_values (context : CalculationContext)
    (report_variables : List (String × VarConfig)) : CalculationContext :=
  let start := { context with validation_flags := [], expected_flags := [] }
  context.calculated_values.foldl
    (fun ctx p =>
      match report_variables.lookup p.1 with
      | Option.none => ctx
      | some cfg =>
        let validation_rules := cfg.fieldStr "Validation_Rules" ""
        let ctx :=
          if validation_rules ≠ "" then
            let vm := validate_value p.2 validation_rules
            if !vm.1 then
              { ctx with
                validation_flags := ctx.validation_flags ++
                  [⟨p.1, p.2, vm.2, "validation_error"⟩]
                errors := ctx.errors ++ ["🔴 " ++ p.1 ++ ": " ++ vm.2] }
            else ctx
          else ctx
        let expected_values := cfg.fieldStr "Expected_Values" ""
        if expected_values ≠ "" then
          let em := check_expected_range p.2 expected_values
          if !em.1 then
            { ctx with
              expected_flags := ctx.expected_flags ++
                [⟨p.1, p.2, em.2, "expected_range_warning"⟩]
              warnings := ctx.warnings ++ ["🟡 " ++ p.1 ++ ": " ++ em.2] }
          else ctx
        else ctx)
    start

/-! ### Year-to-date aggregation -/

/-- `list(range(a, b))` over integers. -/
def intRange (a b : ℤ) : List ℤ :=
  (List.range (b - a).toNat).map (fun i => a + i)

/-- Month names to month numbers (calculation_engine.py:764-768). -/
def monthNames : List (String × ℤ) :=
  [("January", 1), ("February", 2), ("March", 3), ("April", 4), ("May", 5), ("June", 6),
   ("July", 7), ("August", 8), ("September", 9), ("October", 10), ("November", 11),
   ("December", 12)]

/-- `str(context.report_year)`. -/
def reportYearStr (context : CalculationContext) : String :=
  match context.report_year with
  | some y => toString y
  | Option.none => "None"

/-- Client matching of the YTD scan (calculation_engine.py:704-733): try the
record's `client_record_id` against the context's, then the record's
`client` field against it, then the record's `client` field against the
context's `client_id`. -/
def ytdClientMatch (context : CalculationContext) (fields : PyDict) : Bool :=
  let client_field := (fields.lookup "client").getD .none
  let cri_field := (fields.lookup "client_record_id").getD .none
  let matchField := fun (f : PyVal) (cid : String) =>
    match f with
    | .pylist vs => vs.contains (.str cid)
    | v => v == .str cid
  let m1 :=
    match context.client_record_id with
    | Option.none => false
    | some cri =>
      (if pyTruthy cri_field then matchField cri_field cri else false) ||
      (if pyTruthy client_field then matchField client_field cri else false)
  m1 || (if context.client_id ≠ "" ∧ pyTruthy client_field then
      matchField client_field context.client_id
    else false)

/-- Year matching of the YTD scan (calculation_engine.py:735-745):
string-compare the record's `year` field against `str(report_year)`. -/
def ytdYearMatch (context : CalculationContext) (fields : PyDict) : Bool :=
  let year_field := (fields.lookup "year").getD .none
  if !pyTruthy year_field then false
  else
    match year_field with
    | .pylist vs => vs.any (fun y => pyStrOfVal y.toVal == reportYearStr context)
    | v => pyStrOfVal v == reportYearStr context

/-- Month extraction of the YTD scan (calculation_engine.py:754-777):
truthiness check, lookup-unwrap, month names for strings, `int()` otherwise;
`Option.none` is a skipped record. -/
def ytdMonthNum (fields : PyDict) : Option ℤ :=
  let mf0 := (fields.lookup "month").getD .none
  if !pyTruthy mf0 then Option.none
  else
    match extract_lookup_value mf0 with
    | .str s => monthNames.lookup s
    | .num q => some (pnTrunc q)
    | .bool b => some (if b then 1 else 0)
    | _ => Option.none

/-- Numeric coercion of a month's value (calculation_engine.py:808-817):
strings lose `,` and `$` before `float`. -/
def ytdNumeric : PyVal → Option PyNum
  | .str s => pyFloatOfString (pyReplace (pyReplace s "," "") "$" "")
  | v => pyFloat v

/-- Python dict assignment for integer keys. -/
def zdictInsert (d : List (ℤ × PyNum)) (k : ℤ) (v : PyNum) : List (ℤ × PyNum) :=
  if d.any (fun p => p.1 == k) then d.map (fun p => if p.1 == k then (k, v) else p)
  else d ++ [(k, v)]

/-- `calculate_ytd_value` (calculation_engine.py:635-912).  Returns the YTD
value (or the string `"No Data"`) and the metadata dict.  The current-month
reads use the literal variable `hhs`, as in the source; `base_variable` only
selects the field read from historical records.  The store query cannot fail
in the model, so the `except` arm returning `"No Data"` with a failure
reason is unreachable and not modelled. -/
def calculate_ytd_value (env : Env) (context : CalculationContext)
    (base_variable : String) : PyVal × YTDMeta :=
  let previous_months : List ℤ :=
    match context.report_month with
    | some m => if m = 0 then [] else intRange 1 m
    | Option.none => []
  if previous_months.isEmpty then
    let current_hhs := context.get_value "hhs"
    if current_hhs ≠ .none then
      (current_hhs,
       { reason := some "No previous months in current year, using current month HHS value",
         months := [], ytd_value := current_hhs, current_month_hhs := some current_hhs })
    else
      (.str "No Data",
       { reason := some "No previous months and no current month HHS value available",
         months := [], ytd_value := .num (pnInt 0), current_month_hhs := Option.none })
  else
    let matching_records : List (ℤ × PyVal) :=
      env.generated_reports.filterMap (fun r =>
        let fields := r.fields
        if !ytdClientMatch context fields then Option.none
        else if !ytdYearMatch context fields then Option.none
        else if !pyTruthy (extract_lookup_value ((fields.lookup "is_full_month").getD .none))
          then Option.none
        else
          match ytdMonthNum fields with
          | some month_num =>
            if previous_months.contains month_num then
              let variable_value :=
                extract_lookup_value ((fields.lookup base_variable).getD .none)
              if variable_value ≠ .none then some (month_num, variable_value)
              else Option.none
            else Option.none
          | Option.none => Option.none)
    let months_with_data : List (ℤ × PyNum) :=
      matching_records.foldl
        (fun d mv =>
          match ytdNumeric mv.2 with
          | some q => zdictInsert d mv.1 q
          | Option.none => d)
        []
    if months_with_data.isEmpty then
      let current_hhs := context.get_value "hhs"
      let month_details := previous_months.map (fun m => (toString m, PyVal.str "missing"))
      if current_hhs ≠ .none then
        (current_hhs,
         { reason := some "No historical data found, using current month HHS value",
           months := month_details, ytd_value := current_hhs,
           current_month_hhs := some current_hhs })
      else
        (.str "No Data",
         { reason := some "No historical data and no current month HHS value available",
           months := month_details, ytd_value := .num (pnInt 0),
           current_month_hhs := Option.none })
    else
      let previous_months_total :=
        months_with_data.foldl (fun acc p => pnAdd acc p.2) (pnInt 0)
      let current_hhs := context.get_value "hhs"
      let ytd_total :=
        if current_hhs ≠ .none then
          match ytdNumeric current_hhs with
          | some q => pnAdd previous_months_total q
          | Option.none => previous_months_total
        else previous_months_total
      let month_details := previous_months.map (fun m =>
        match months_with_data.lookup m with
        | some q => (toString m, PyVal.num q)
        | Option.none => (toString m, PyVal.str "missing"))
      let month_details2 :=
        if current_hhs ≠ .none then
          month_details ++
            [((match context.report_month with
               | some m => toString m
               | Option.none => "None"), current_hhs)]
        else month_details
      (.num ytd_total,
       { reason := Option.none, months := month_details2, ytd_value := .num ytd_total,
         current_month_hhs := Option.none })

/-! ### Calculation orchestrator -/

/-- The precomputed dependency order consumed by the orchestrator
(`calculation_order` of `dependency_analysis.json`). -/
structure DependencyAnalysis where
  level_0 : List String
  level_1 : List String
  level_2 : List String
  level_3 : List String
  level_4 : List String
  level_5 : List String
  deriving DecidableEq

/-- One iteration of the level-0 loop (calculation_engine.py:937-946):
resolve the variable; on an absent result append a warning (not an error). -/
def process_level0_var (env : Env) (global_vars : PyDict)
    (report_variables : List (String × VarConfig)) (context : CalculationContext)
    (var : String) : CalculationContext :=
  match report_variables.lookup var with
  | Option.none => context
  | some cfg =>
    let rc := resolve_value env var context cfg global_vars
    if rc.1 ≠ .none then rc.2
    else
      { rc.2 with warnings := rc.2.warnings ++
          ["Level 0 variable \x27" ++ var ++ "\x27 has no value"] }

/-- One iteration of the level-N loop (calculation_engine.py:957-998):
catalog check, missing-formula error, `client_historical` skip, formula
evaluation, then either storing the result with a calculation-log entry or
recording the error and attempting the fallback chain, tagging its success
`fallback_after_error`. -/
def process_level_var (env : Env) (global_vars : PyDict)
    (report_variables : List (String × VarConfig)) (level : ℕ)
    (context : CalculationContext) (var : String) : CalculationContext :=
  match report_variables.lookup var with
  | Option.none =>
    { context with errors := context.errors ++
        ["Variable \x27" ++ var ++ "\x27 not found in Report_Variables"] }
  | some cfg =>
    let source_type := pyLower (cfg.fieldStr "Source_Type" "")
    let formula := cfg.formula
    if source_type ≠ "client_historical" ∧ formula = "" then
      { context with errors := context.errors ++
          ["No formula for calculated variable \x27" ++ var ++ "\x27"] }
    else if source_type = "client_historical" then context
    else
      let all_values := context.get_all_values
      let variable_types := (findPlaceholders formula).filterMap
        (fun k => (report_variables.lookup k).map
          (fun c => (k, c.fieldStr "Data_Type" "number")))
      let et := evaluate_formula formula all_values variable_types context.conversion_tracker
      let context := { context with conversion_tracker := et.2 }
      match et.1.error with
      | some err =>
        let context := { context with errors := context.errors ++
            ["Error calculating " ++ var ++ ": " ++ err] }
        let rc := resolve_value env var context cfg global_vars
        if rc.1 ≠ .none then rc.2.add_value var rc.1 "fallback_after_error"
        else rc.2
      | Option.none =>
        let context :=
          context.add_value var ((et.1.result.map PyVal.num).getD .none) "calculated"
        { context with calculation_log := context.calculation_log ++
            [.formulaEntry var formula et.1.result level et.1.expression et.1.var_values] }

/-- The after-level-3 YTD step (calculation_engine.py:1001-1018). -/
def run_ytd_step (env : Env) (context : CalculationContext) : CalculationContext :=
  let ym := calculate_ytd_value env context "hhs"
  let context :=
    if ym.1 = .str "No Data" then
      let c := context.add_value "hhs_ytd" .none "no_data"
      { c with warnings := c.warnings ++
          ["hhs_ytd: " ++ (ym.2.reason.getD "No data available")] }
    else
      let c := context.add_value "hhs_ytd" ym.1 "calculated_ytd"
      { c with calculation_log := c.calculation_log ++ [.ytdEntry "hhs_ytd" ym.1 ym.2] }
  { context with ytd_metadata := [("hhs_ytd", ym.2)] }

/-- One level of the 1..5 loop (calculation_engine.py:949-1018).  An empty
level list is skipped by `continue`, which also skips the after-level-3 YTD
step. -/
def run_level (env : Env) (global_vars : PyDict)
    (report_variables : List (String × VarConfig)) (level : ℕ)
    (level_vars : List String) (context : CalculationContext) : CalculationContext :=
  if level_vars.isEmpty then context
  else
    let context := level_vars.foldl
      (process_level_var env global_vars report_variables level) context
    if level = 3 then run_ytd_step env context else context

/-- `calculate_all_variables` (calculation_engine.py:915-1029): reset the
tracker, resolve level 0, run levels 1-5 (YTD after level 3), validate, and
return overall success defined as `len(errors) == 0`, together with the
final context. -/
def calculate_all_variables (env : Env) (context : CalculationContext)
    (dependency_analysis : DependencyAnalysis)
    (report_variables : List (String × VarConfig)) (global_vars : PyDict) :
    Bool × CalculationContext :=
  let context := { context with
    conversion_tracker := context.conversion_tracker.reset_for_new_calculation }
  let context := dependency_analysis.level_0.foldl
    (process_level0_var env global_vars report_variables) context
  let context := run_level env global_vars report_variables 1 dependency_analysis.level_1 context
  let context := run_level env global_vars report_variables 2 dependency_analysis.level_2 context
  let context := run_level env global_vars report_variables 3 dependency_analysis.level_3 context
  let context := run_level env global_vars report_variables 4 dependency_analysis.level_4 context
  let context := run_level env global_vars report_variables 5 dependency_analysis.level_5 context
  let context := validate_all_calculated_values context report_variables
  (context.errors.isEmpty, context)

/-! ### Concrete sample data used by counterexamples and witnesses -/

/-- A June report context (dates as day numbers) with the raw level-0 value
`p = 100` and a fresh tracker. -/
def sampleContext : CalculationContext :=
  { client_id := "c1", client_record_id := Option.none,
    date_start := .date 152, date_end := .date 181,
    raw_data := [("p", .num ⟨100, 1⟩)],
    report_month := some 6, report_year := some 2024,
    calculated_values := [], fallback_log := [], calculation_log := [],
    errors := [], warnings := [], ytd_metadata := [],
    validation_flags := [], expected_flags := [],
    conversion_tracker := ⟨[], []⟩ }

/-- An environment with no client overrides and no historical records. -/
def sampleEnvEmpty : Env :=
  { client_variables := fun _ => Option.none, generated_reports := [] }

/-- A percentage-typed variable whose only fallback is `calculation`, with a
formula that divides by `{p} - 1`. -/
def calcFallbackCfg : VarConfig :=
  { fields := [("Data_Type", .str "percentage")],
    formula := "1/({p} - 1)",
    fallback_1 := some "calculation", fallback_2 := Option.none,
    previous_period_max := 6 }

/-- An environment whose `Client_Variables` row for client `c1` carries the
static override `w = 7`. -/
def clientStaticEnv : Env :=
  { client_variables := fun c => if c = "c1" then some [("w", .num ⟨7, 1⟩)] else Option.none,
    generated_reports := [] }

/-- A `client_static`, number-typed variable with no fallbacks. -/
def clientStaticCfg : VarConfig :=
  { fields := [("Source_Type", .str "Client_Static"), ("Data_Type", .str "number")],
    formula := "", fallback_1 := Option.none, fallback_2 := Option.none,
    previous_period_max := 0 }

/-- The sample context with a conflicting raw level-0 value `w = 5`. -/
def sampleContextRawW : CalculationContext :=
  { sampleContext with raw_data := [("w", .num ⟨5, 1⟩)] }

/-- A plain variable resolved through the `global_default` fallback. -/
def globalDefaultCfg : VarConfig :=
  { fields := [("Data_Type", .str "number")],
    formula := "", fallback_1 := some "global_default", fallback_2 := Option.none,
    previous_period_max := 0 }

/-- The selection rule exactly as the specification words it (C8): the most
recent prior full-period record within the configured lookback window,
strictly before the current period's END, matching the same client, that has
a non-null value for the variable.  Written from the spec's sentence, to be
compared with `find_previous_period_value`. -/
def spec_previous_period_value (env : Env) (variable_name client_id : String)
    (current_date_end : ℤ) (max_months : ℤ) : PyVal :=
  let candidates := env.generated_reports.filterMap (fun r =>
    let client_field := (r.fields.lookup "client").getD .none
    if pyTruthy client_field && clientFieldMatches client_field client_id &&
        pyTruthy (extract_lookup_value ((r.fields.lookup "is_full_month").getD .none)) then
      match extract_lookup_value ((r.fields.lookup "date_end").getD .none) with
      | .date d =>
        if current_date_end - max_months * 30 < d ∧ d < current_date_end ∧
            (r.fields.lookup variable_name).getD .none ≠ .none then
          some (r, d)
        else Option.none
      | _ => Option.none
    else Option.none)
  match candidates.foldl
      (fun acc rd =>
        match acc with
        | Option.none => some rd
        | some best => if best.2 < rd.2 then some rd else some best)
      Option.none with
  | some rd => (rd.1.fields.lookup variable_name).getD .none
  | Option.none => .none

/-- A store with two full-month records for client `c1`: one dated inside
the current period (day 166, value 50) and one before it (day 151,
value 40). -/
def prevPeriodEnv : Env :=
  { client_variables := fun _ => Option.none,
    generated_reports :=
      [⟨"r1", [("client", .pylist [.str "c1"]), ("is_full_month", .bool true),
               ("date_end", .date 166), ("x", .num ⟨50, 1⟩)]⟩,
       ⟨"r2", [("client", .pylist [.str "c1"]), ("is_full_month", .bool true),
               ("date_end", .date 151), ("x", .num ⟨40, 1⟩)]⟩] }

/-- A January context: report month 1, with the raw base value `hhs = 42`. -/
def januaryContext : CalculationContext :=
  { sampleContext with
      report_month := some 1
      raw_data := [("hhs", .num ⟨42, 1⟩)] }

/-- A level-0 variable with no fallback slots: resolution always fails. -/
def noFallbackCfg : VarConfig :=
  { fields := [], formula := "", fallback_1 := Option.none, fallback_2 := Option.none,
    previous_period_max := 3 }

/-- A one-variable catalog holding only the fallback-free variable `x`. -/
def rvX : List (String × VarConfig) := [("x", noFallbackCfg)]

/-- A dependency analysis whose only populated level is level 0 = `[x]`. -/
def depL0 : DependencyAnalysis :=
  { level_0 := ["x"], level_1 := [], level_2 := [], level_3 := [], level_4 := [],
    level_5 := [] }

/-! ## Theorems -/

/-- Marking a variable converted makes `is_converted` report `true` for it. -/
theorem mark_is_converted (t : ConversionTracker) (N s : String) (o c : PyVal) :
    (t.mark_converted N s o c).is_converted N = true := by
  simp [ConversionTracker.mark_converted, ConversionTracker.is_converted]

/-- A numeric value whose variable is already marked converted passes through
`safe_percentage_conversion` unchanged. -/
theorem spc_marked_num (q : PyNum) (N s : String) (t : ConversionTracker)
    (h : t.is_converted N = true) :
    safe_percentage_conversion (.num q) N s t = .ok (.num q, false, t) := by
  simp [safe_percentage_conversion, h, pyFloat]

/-- A numeric value below 1 passes through unchanged even when unmarked. -/
theorem spc_unmarked_num_small (q : PyNum) (N s : String) (t : ConversionTracker)
    (hN : t.is_converted N = false) (hq : pnLeb (pnInt 1) q = false) :
    safe_percentage_conversion (.num q) N s t = .ok (.num q, false, t) := by
  simp [safe_percentage_conversion, spcNumericArm, hN, hq, pyFloat]

/-- Re-running `safe_percentage_conversion` on any output of the numeric arm
is a no-op. -/
theorem spc_after_numeric_arm (val v : PyVal) (N s1 s2 : String)
    (t t' : ConversionTracker) (b : Bool)
    (hN : t.is_converted N = false) (hval : val ≠ .none)
    (hstr : ∀ s0, val = .str s0 → pyEndsWith (pyStrip s0) "%" = false)
    (h1 : spcNumericArm val N s1 t = .ok (v, b, t')) :
    safe_percentage_conversion v N s2 t' = .ok (v, false, t') := by
  unfold spcNumericArm at h1
  cases hf : pyFloat val with
  | some q =>
    simp only [hf] at h1
    by_cases hle : pnLeb (pnInt 1) q = true
    · simp only [hle, if_true] at h1
      simp only [Except.ok.injEq, Prod.mk.injEq] at h1
      obtain ⟨rfl, rfl, rfl⟩ := h1
      exact spc_marked_num _ _ _ _ (mark_is_converted ..)
    · rw [if_neg (by simpa using hle)] at h1
      simp only [Except.ok.injEq, Prod.mk.injEq] at h1
      obtain ⟨rfl, rfl, rfl⟩ := h1
      exact spc_unmarked_num_small _ _ _ _ hN (by simpa using hle)
  | none =>
    simp only [hf] at h1
    simp only [Except.ok.injEq, Prod.mk.injEq] at h1
    obtain ⟨rfl, rfl, rfl⟩ := h1
    cases val with
    | none => exact absurd rfl hval
    | num q => simp [pyFloat] at hf
    | str s =>
      rw [safe_percentage_conversion]
      simp only [hN, Bool.false_eq_true, if_false]
      rw [if_neg (by simp [hstr s rfl])]
      simp [spcNumericArm, hf]
    | bool b2 => simp [pyFloat] at hf
    | date d => simp [safe_percentage_conversion, spcNumericArm, hN, hf, pyFloat]
    | pylist vs => simp [safe_percentage_conversion, spcNumericArm, hN, hf, pyFloat]

/-- C1: idempotent percentage conversion.  For every value `V` and variable
name `N`, starting from a tracker in which `N` is unmarked, if the first call
of `safe_percentage_conversion` returns `(v, b)` (with updated tracker `t'`),
then re-converting `v` for the same variable with tracker `t'` returns the
first call's value unchanged, reports `was_converted = false`, and leaves the
tracker unchanged. -/
theorem safe_percentage_conversion_idem
    (V v : PyVal) (N s1 s2 : String) (t t' : ConversionTracker) (b : Bool)
    (hN : t.is_converted N = false)
    (h1 : safe_percentage_conversion V N s1 t = .ok (v, b, t')) :
    safe_percentage_conversion v N s2 t' = .ok (v, false, t') := by
  cases V with
  | none =>
    simp only [safe_percentage_conversion, Except.ok.injEq, Prod.mk.injEq] at h1
    obtain ⟨rfl, rfl, rfl⟩ := h1
    rfl
  | str s =>
    simp only [safe_percentage_conversion] at h1
    simp only [hN, Bool.false_eq_true, if_false] at h1
    by_cases hp : pyEndsWith (pyStrip s) "%" = true
    · simp only [hp, if_true] at h1
      cases hf : pyFloatOfString (pyDropLast (pyStrip s)) with
      | none => simp only [hf] at h1; exact absurd h1 (by simp)
      | some q =>
        simp only [hf, Except.ok.injEq, Prod.mk.injEq] at h1
        obtain ⟨rfl, rfl, rfl⟩ := h1
        exact spc_marked_num _ _ _ _ (mark_is_converted ..)
    · rw [if_neg hp] at h1
      exact spc_after_numeric_arm _ _ _ _ _ _ _ _ hN (by simp)
        (fun s0 hs0 => by cases hs0; simpa using hp) h1
  | num q =>
    simp only [safe_percentage_conversion] at h1
    simp only [hN, Bool.false_eq_true, if_false] at h1
    exact spc_after_numeric_arm _ _ _ _ _ _ _ _ hN (by simp) (fun s0 hs0 => by cases hs0) h1
  | bool b2 =>
    simp only [safe_percentage_conversion] at h1
    simp only [hN, Bool.false_eq_true, if_false] at h1
    exact spc_after_numeric_arm _ _ _ _ _ _ _ _ hN (by simp) (fun s0 hs0 => by cases hs0) h1
  | date d =>
    simp only [safe_percentage_conversion] at h1
    simp only [hN, Bool.false_eq_true, if_false] at h1
    exact spc_after_numeric_arm _ _ _ _ _ _ _ _ hN (by simp) (fun s0 hs0 => by cases hs0) h1
  | pylist vs =>
    simp only [safe_percentage_conversion] at h1
    simp only [hN, Bool.false_eq_true, if_false] at h1
    exact spc_after_numeric_arm _ _ _ _ _ _ _ _ hN (by simp) (fun s0 hs0 => by cases hs0) h1

/-- Witness for C1: converting `"25%"` for the fresh variable `rate` gives
`0.25` and marks it; converting the result again is a no-op reporting
`was_converted = false`. -/
theorem safe_percentage_conversion_idem_witness :
    (⟨[], []⟩ : ConversionTracker).is_converted "rate" = false ∧
    safe_percentage_conversion (.num ⟨1, 4⟩) "rate" "apply_fallback"
        ⟨["rate"], [⟨"rate", "resolve_value", .str "25%", .num ⟨1, 4⟩⟩]⟩ =
      .ok (.num ⟨1, 4⟩, false,
        ⟨["rate"], [⟨"rate", "resolve_value", .str "25%", .num ⟨1, 4⟩⟩]⟩) :=
  ⟨by decide,
   safe_percentage_conversion_idem (.str "25%") (.num ⟨1, 4⟩) "rate" "resolve_value"
     "apply_fallback" ⟨[], []⟩
     ⟨["rate"], [⟨"rate", "resolve_value", .str "25%", .num ⟨1, 4⟩⟩]⟩ true
     (by decide) (by decide)⟩

/-- C2 counterexample: a numeric value of exactly `1.0` with an unmarked
tracker is NOT returned unchanged: `safe_percentage_conversion` takes the
`numeric_value >= 1` branch (which shadows the `== 1.0` ambiguity branch),
divides by 100, marks the variable converted, and reports
`was_converted = true`. -/
theorem safe_percentage_conversion_one_counterexample :
    safe_percentage_conversion (.num ⟨1, 1⟩) "close_rate" "resolve_value" ⟨[], []⟩ =
      .ok (.num ⟨1, 100⟩, true,
        ⟨["close_rate"], [⟨"close_rate", "resolve_value", .num ⟨1, 1⟩, .num ⟨1, 100⟩⟩]⟩) ∧
    PyVal.num ⟨1, 100⟩ ≠ PyVal.num ⟨1, 1⟩ := by
  constructor
  · decide
  · decide

/-- C2 (amended): for a numeric input exactly `1.0` with the variable
unmarked, `safe_percentage_conversion` treats it like any value ≥ 1: it
converts it to `0.01`, marks the variable converted, and reports
`was_converted = true` (the exactly-1.0 ambiguity branch of the source is
unreachable because the `>= 1` test already captured the value, and the
repository's conversion-tracker test suite asserts this converting
behaviour). -/
theorem safe_percentage_conversion_one_amended (N s : String) (t : ConversionTracker)
    (hN : t.is_converted N = false) :
    safe_percentage_conversion (.num ⟨1, 1⟩) N s t =
      .ok (.num ⟨1, 100⟩, true, t.mark_converted N s (.num ⟨1, 1⟩) (.num ⟨1, 100⟩)) := by
  have h2 : pnLeb (pnInt 1) ⟨1, 1⟩ = true := by decide
  have h3 : pnDiv ⟨1, 1⟩ (pnInt 100) = ⟨1, 100⟩ := by decide
  simp [safe_percentage_conversion, spcNumericArm, hN, pyFloat, h2, h3]

/-- Witness for the amended C2 at a fresh tracker. -/
theorem safe_percentage_conversion_one_amended_witness :
    safe_percentage_conversion (.num ⟨1, 1⟩) "close_rate" "stage" ⟨[], []⟩ =
      .ok (.num ⟨1, 100⟩, true,
        ⟨["close_rate"], [⟨"close_rate", "stage", .num ⟨1, 1⟩, .num ⟨1, 100⟩⟩]⟩) :=
  safe_percentage_conversion_one_amended "close_rate" "stage" ⟨[], []⟩ (by decide)

/-- C3: formula sandboxing.  For every formula and assignment of values to
its placeholders, if the substitution loop completes and the normalized
substituted expression contains any character outside
`[0-9.+\-*/()\s]`, then `evaluate_formula` returns an absent result with the
`Invalid characters in formula` error and never reaches the evaluation step
(no evaluated expression or operand trace is produced). -/
theorem evaluate_formula_sandbox (formula : String) (values : PyDict)
    (tys : List (String × String)) (tr : ConversionTracker)
    (expr0 : String) (traces : List String) (tr' : ConversionTracker)
    (hloop : evalFormulaLoop values tys (findPlaceholders formula) formula [] tr =
      .ok (expr0, traces, tr'))
    (hbad : ∃ c ∈ (normalizeExpr expr0).data, allowedFormulaChar c = false) :
    evaluate_formula formula values tys tr =
      (⟨Option.none, some ("Invalid characters in formula: " ++ normalizeExpr expr0),
        Option.none, Option.none⟩, tr') := by
  obtain ⟨c, hc, hcbad⟩ := hbad
  have hall : ¬ ((normalizeExpr expr0).data.all allowedFormulaChar = true) := by
    intro h
    rw [List.all_eq_true] at h
    have := h c hc
    rw [hcbad] at this
    exact Bool.false_ne_true this
  have hform : formula ≠ "" := by
    intro h
    subst h
    simp [findPlaceholders, findPlaceholdersAux, evalFormulaLoop,
      Except.ok.injEq] at hloop
    obtain ⟨h1, -, -⟩ := hloop
    rw [← h1] at hall
    exact hall (by decide)
  rw [evaluate_formula, if_neg hform, hloop]
  simp only []
  rw [if_neg (by intro hand; exact hall hand.2)]

/-- Witness for C3: the formula `{a} + pow` with `a = 1` substitutes to
`1 + pow`, whose letters fail the character check. -/
theorem evaluate_formula_sandbox_witness :
    evaluate_formula "{a} + pow" [("a", .num ⟨1, 1⟩)] [] ⟨[], []⟩ =
      (⟨Option.none, some "Invalid characters in formula: 1 + pow",
        Option.none, Option.none⟩, ⟨[], []⟩) := by
  have h := evaluate_formula_sandbox "{a} + pow" [("a", .num ⟨1, 1⟩)] [] ⟨[], []⟩
    "1 + pow" ["a=1"] ⟨[], []⟩ (by decide) (by decide)
  have e1 : normalizeExpr "1 + pow" = "1 + pow" := by decide
  rw [e1] at h
  exact h

/-- C6: division by zero in a formula.  Whenever the substitution loop
completes and the sanitized expression passes the character check, a
`ZeroDivisionError` during evaluation yields result `0` together with the
non-empty `Division by zero` message, and every other evaluation failure
yields an absent result with an `Evaluation error` message; in both cases the
function returns normally (the model is a total function, so no exception
reaches the caller). -/
theorem evaluate_formula_evalstep (formula : String) (values : PyDict)
    (tys : List (String × String)) (tr : ConversionTracker)
    (expr0 : String) (traces : List String) (tr' : ConversionTracker)
    (hloop : evalFormulaLoop values tys (findPlaceholders formula) formula [] tr =
      .ok (expr0, traces, tr'))
    (hgood : normalizeExpr expr0 ≠ "" ∧
      (normalizeExpr expr0).data.all allowedFormulaChar = true) :
    (pyEval (normalizeExpr expr0) = .zeroDiv →
      evaluate_formula formula values tys tr =
        (⟨some (pnInt 0), some ("Division by zero in formula: " ++ formula),
          some (normalizeExpr expr0), some traces⟩, tr') ∧
      ("Division by zero in formula: " ++ formula) ≠ "") ∧
    (∀ e, pyEval (normalizeExpr expr0) = .err e →
      evaluate_formula formula values tys tr =
        (⟨Option.none, some ("Evaluation error: " ++ e),
          some (normalizeExpr expr0), some traces⟩, tr')) := by
  have hform : formula ≠ "" := by
    intro h
    subst h
    simp [findPlaceholders, findPlaceholdersAux, evalFormulaLoop,
      Except.ok.injEq] at hloop
    obtain ⟨h1, -, -⟩ := hloop
    rw [← h1] at hgood
    exact hgood.1 rfl
  have hmsg : ("Division by zero in formula: " ++ formula) ≠ "" := by
    intro h
    have hd := congrArg String.data h
    rw [String.data_append] at hd
    exact absurd (List.append_eq_nil.mp hd).1 (by decide)
  constructor
  · intro hz
    refine ⟨?_, hmsg⟩
    rw [evaluate_formula, if_neg hform, hloop]
    simp only []
    rw [if_pos hgood, hz]
  · intro e he
    rw [evaluate_formula, if_neg hform, hloop]
    simp only []
    rw [if_pos hgood, he]

/-- Witness for C6: `{a}/{b}` with `a = 10, b = 0` evaluates to result `0`
with a non-empty division-by-zero message. -/
theorem evaluate_formula_evalstep_witness :
    evaluate_formula "{a}/{b}" [("a", .num ⟨10, 1⟩), ("b", .num ⟨0, 1⟩)] [] ⟨[], []⟩ =
      (⟨some (pnInt 0), some "Division by zero in formula: {a}/{b}", some "10/0",
        some ["a=10", "b=0"]⟩, ⟨[], []⟩) ∧
    ("Division by zero in formula: {a}/{b}" : String) ≠ "" := by
  have h := (evaluate_formula_evalstep "{a}/{b}" [("a", .num ⟨10, 1⟩), ("b", .num ⟨0, 1⟩)]
    [] ⟨[], []⟩ "10/0" ["a=10", "b=0"] ⟨[], []⟩ (by decide) (by decide)).1 (by decide)
  have e1 : normalizeExpr "10/0" = "10/0" := by decide
  rw [e1] at h
  exact h


/-- The head character of an appended string is the left part's head. -/
theorem data_head_append (s x : String) (c : Char) (h : s.data.head? = some c) :
    (s ++ x).data.head? = some c := by
  rw [String.data_append]
  cases hs : s.data with
  | nil => rw [hs] at h; exact absurd h (by simp)
  | cons a as => rw [hs] at h; simpa using h

/-- Two strings whose head characters differ are different, even after
appending to the first. -/
theorem string_append_ne_of_head (a b t : String) (c1 c2 : Char)
    (h1 : a.data.head? = some c1) (h2 : t.data.head? = some c2) (hne : c1 ≠ c2) :
    a ++ b ≠ t := by
  intro h
  have hd := congrArg String.data h
  rw [String.data_append] at hd
  match hA : a.data with
  | [] => rw [hA] at h1; exact absurd h1 (by simp)
  | c :: cs =>
    rw [hA] at hd h1
    rw [List.cons_append] at hd
    have h3 := congrArg List.head? hd
    rw [h2] at h3
    simp only [List.head?_cons, Option.some.injEq] at h3 h1
    exact hne (h1 ▸ h3)

/-- `apply_fallback` reports `calculation_needed` only for the `calculation`
strategy. -/
theorem apply_fallback_source_calc (env : Env) (ft : Option String) (v : String)
    (ctx : CalculationContext) (gv : PyDict) (mp : ℤ)
    (h : (apply_fallback env ft v ctx gv mp).2 = "calculation_needed") :
    ft.getD "" = "calculation" := by
  simp only [apply_fallback] at h
  split_ifs at h with h1 h2 h3 h4 h5
  · exact absurd h (by decide)
  · exact absurd h (by decide)
  · exfalso
    revert h
    split
    · split_ifs <;> intro h
      · exact string_append_ne_of_head ("previous_period(" ++ toString mp) "mo)" _ 'p' 'c'
          (data_head_append _ _ _ (by decide)) (by decide) (by decide)
          (show ("previous_period(" ++ toString mp) ++ "mo)" = "calculation_needed" from h)
      · exact absurd (show ("fallback_failed(previous_period)" : String) =
          "calculation_needed" from h) (by decide)
    · intro h
      exact absurd (show ("invalid_date_end" : String) = "calculation_needed" from h) (by decide)
  · exfalso
    revert h
    split <;> intro h
    · exact absurd (show ("global_default" : String) = "calculation_needed" from h) (by decide)
    · exact absurd (show ("fallback_failed(global_default)" : String) =
        "calculation_needed" from h) (by decide)
  · exact h5
  · exact absurd (show ("fallback_failed(" ++ ft.getD "") ++ ")" = "calculation_needed" from h)
      (string_append_ne_of_head ("fallback_failed(" ++ ft.getD "") ")" _ 'f' 'c'
        (data_head_append _ _ _ (by decide)) (by decide) (by decide))



/-- `safe_percentage_conversion` never turns a non-`None` value into `None`. -/
theorem spc_ok_ne_none (x y : PyVal) (N s : String) (t t' : ConversionTracker) (b : Bool)
    (hx : x ≠ .none) (h : safe_percentage_conversion x N s t = .ok (y, b, t')) :
    y ≠ .none := by
  have harm : ∀ z, z ≠ PyVal.none → spcNumericArm z N s t = .ok (y, b, t') →
      y ≠ PyVal.none := by
    intro z hzn hz
    unfold spcNumericArm at hz
    cases hq : pyFloat z with
    | some q =>
      simp only [hq] at hz
      split_ifs at hz <;> simp only [Except.ok.injEq, Prod.mk.injEq] at hz <;>
        (obtain ⟨rfl, -, -⟩ := hz; simp)
    | none =>
      simp only [hq, Except.ok.injEq, Prod.mk.injEq] at hz
      obtain ⟨rfl, -, -⟩ := hz
      exact hzn
  unfold safe_percentage_conversion at h
  cases x with
  | none => exact absurd rfl hx
  | str sv =>
    by_cases hconv : t.is_converted N = true
    · simp only [hconv, if_true] at h
      cases hq : pyFloat (.str sv) with
      | some q =>
        simp only [hq, Except.ok.injEq, Prod.mk.injEq] at h
        obtain ⟨rfl, -, -⟩ := h; simp
      | none => simp only [hq] at h; exact absurd h (by simp)
    · simp only [Bool.not_eq_true] at hconv
      simp only [hconv, Bool.false_eq_true, if_false] at h
      by_cases hpct : pyEndsWith (pyStrip sv) "%" = true
      · simp only [hpct, if_true] at h
        cases hq : pyFloatOfString (pyDropLast (pyStrip sv)) with
        | some q =>
          simp only [hq, Except.ok.injEq, Prod.mk.injEq] at h
          obtain ⟨rfl, -, -⟩ := h; simp
        | none => simp only [hq] at h; exact absurd h (by simp)
      · rw [if_neg hpct] at h
        exact harm _ (by simp) h
  | num q =>
    by_cases hconv : t.is_converted N = true
    · simp only [hconv, if_true, pyFloat] at h
      simp only [Except.ok.injEq, Prod.mk.injEq] at h
      obtain ⟨rfl, -, -⟩ := h; simp
    · simp only [Bool.not_eq_true] at hconv
      simp only [hconv, Bool.false_eq_true, if_false] at h
      exact harm _ (by simp) h
  | bool b2 =>
    by_cases hconv : t.is_converted N = true
    · simp only [hconv, if_true, pyFloat] at h
      simp only [Except.ok.injEq, Prod.mk.injEq] at h
      obtain ⟨rfl, -, -⟩ := h; simp
    · simp only [Bool.not_eq_true] at hconv
      simp only [hconv, Bool.false_eq_true, if_false] at h
      exact harm _ (by simp) h
  | date d =>
    by_cases hconv : t.is_converted N = true
    · simp only [hconv, if_true, pyFloat] at h
      exact absurd h (by simp)
    · simp only [Bool.not_eq_true] at hconv
      simp only [hconv, Bool.false_eq_true, if_false] at h
      exact harm _ (by simp) h
  | pylist vs =>
    by_cases hconv : t.is_converted N = true
    · simp only [hconv, if_true, pyFloat] at h
      exact absurd h (by simp)
    · simp only [Bool.not_eq_true] at hconv
      simp only [hconv, Bool.false_eq_true, if_false] at h
      exact harm _ (by simp) h

/-- A fallback slot that is not the `calculation` strategy either leaves the
context untouched (no value), or produces a non-`None` value stored through
`add_value`. -/
theorem attempt_fallback_slot_non_calc (env : Env) (v : String) (cfg : VarConfig)
    (gv : PyDict) (mp : ℤ) (slot : Option String) (ctx : CalculationContext)
    (hs : slot ≠ some "calculation") :
    attempt_fallback_slot env v cfg gv mp slot ctx = .ok ctx ∨
    ∃ w src tr2, w ≠ PyVal.none ∧
      attempt_fallback_slot env v cfg gv mp slot ctx =
        .error (w, CalculationContext.add_value
          { ctx with conversion_tracker := tr2 } v w src) := by
  match slot, hs with
  | Option.none, _ => left; simp [attempt_fallback_slot]
  | some s, hs =>
    by_cases hse : s = ""
    · subst hse; left; simp [attempt_fallback_slot]
    · simp only [attempt_fallback_slot]
      rw [if_neg (by simpa using hse)]
      by_cases hcn : (apply_fallback env (some s) v ctx gv mp).2 = "calculation_needed"
      · exfalso
        have hsc := apply_fallback_source_calc env (some s) v ctx gv mp hcn
        simp only [Option.getD] at hsc
        exact hs (by rw [hsc])
      · rw [if_neg hcn]
        by_cases hw : (apply_fallback env (some s) v ctx gv mp).1 ≠ PyVal.none
        · rw [if_pos hw]
          right
          by_cases hdt : cfg.fieldStr "Data_Type" "number" = "percentage"
        
          · rw [if_pos hdt]
            cases hc : safe_percentage_conversion (apply_fallback env (some s) v ctx gv mp).1 v
              "apply_fallback" ctx.conversion_tracker with
            | ok res =>
              obtain ⟨y, b2, tr2⟩ := res
              simp only [hc]
              exact ⟨y, _, tr2, spc_ok_ne_none _ _ _ _ _ _ _ hw hc, rfl⟩
            | error e =>
              simp only [hc]
              exact ⟨(apply_fallback env (some s) v ctx gv mp).1, _, ctx.conversion_tracker,
                hw, rfl⟩
          · rw [if_neg hdt]
            exact ⟨(apply_fallback env (some s) v ctx gv mp).1, _, ctx.conversion_tracker,
              hw, rfl⟩
        · rw [if_neg hw]
          left
          rfl



/-- Looking up a key right after `dictInsert` returns the inserted value. -/
theorem lookup_dictInsert (d : PyDict) (k : String) (v : PyVal) :
    (dictInsert d k v).lookup k = some v := by
  induction d with
  | nil => simp [dictInsert, List.lookup]
  | cons p ps ih =>
    by_cases hp : p.1 = k
    · subst hp
      simp [dictInsert, List.lookup]
    · have hpb : (p.1 == k) = false := by simpa using hp
      have hkb : (k == p.1) = false := by
        simp only [beq_eq_false_iff_ne, ne_eq]
        exact fun h => hp h.symm
      by_cases ha : (ps.any fun q => q.1 == k) = true
      · have ihm := ih
        rw [dictInsert, if_pos ha] at ihm
        rw [dictInsert, if_pos (by simp [List.any_cons, hpb, ha])]
        simp only [List.map_cons, hpb, Bool.false_eq_true, if_false]
        simp only [List.lookup, hkb]
        exact ihm
      · have ihm := ih
        rw [dictInsert, if_neg (by simpa using ha)] at ihm
        rw [dictInsert, if_neg (by simp [List.any_cons, hpb]; simpa using ha)]
        rw [List.cons_append]
        simp only [List.lookup, hkb]
        exact ihm

/-- `get_value` right after `add_value` returns the stored value. -/
theorem get_value_add_value (ctx : CalculationContext) (v : String) (w : PyVal) (src : String) :
    (ctx.add_value v w src).get_value v = w := by
  unfold CalculationContext.add_value CalculationContext.get_value
  simp only [lookup_dictInsert]

/-- For a non-`client_static` variable, `resolve_value` is the
already-resolved short-circuit followed by the two fallback slots. -/
theorem resolve_value_main_path (env : Env) (v : String) (c : CalculationContext)
    (cfg : VarConfig) (gv : PyDict)
    (hstatic : pyLower (cfg.fieldStr "Source_Type" "") ≠ "client_static") :
    resolve_value env v c cfg gv =
      (if c.get_value v ≠ PyVal.none then (c.get_value v, c)
       else
         match attempt_fallback_slot env v cfg gv cfg.previous_period_max cfg.fallback_1 c with
         | .error r => r
         | .ok c2 =>
           match attempt_fallback_slot env v cfg gv cfg.previous_period_max
             cfg.fallback_2 c2 with
           | .error r => r
           | .ok c3 => (PyVal.none, c3)) := by
  simp only [resolve_value]
  rw [if_neg hstatic]

/-- C4 (amended): resolution idempotence for every variable whose
`source_type` is not `client_static` and whose fallback chain does not use
the `calculation` strategy: calling `resolve_value` twice in succession
returns the same value both times, and the fallback log gains at most one
entry for that variable across the two calls. -/
theorem resolve_value_idem_amended (env : Env) (v : String) (ctx : CalculationContext)
    (cfg : VarConfig) (gv : PyDict)
    (hstatic : pyLower (cfg.fieldStr "Source_Type" "") ≠ "client_static")
    (hf1 : cfg.fallback_1 ≠ some "calculation")
    (hf2 : cfg.fallback_2 ≠ some "calculation") :
    (resolve_value env v (resolve_value env v ctx cfg gv).2 cfg gv).1 =
      (resolve_value env v ctx cfg gv).1 ∧
    ((resolve_value env v (resolve_value env v ctx cfg gv).2 cfg gv).2.fallback_log.filter
      (fun e => e.variable_name == v)).length ≤
      (ctx.fallback_log.filter (fun e => e.variable_name == v)).length + 1 := by
  rw [resolve_value_main_path env v ctx cfg gv hstatic]
  by_cases hex : ctx.get_value v ≠ PyVal.none
  · rw [if_pos hex]
    rw [resolve_value_main_path env v ctx cfg gv hstatic, if_pos hex]
    exact ⟨rfl, Nat.le_succ _⟩
  · rw [if_neg hex]
    rcases attempt_fallback_slot_non_calc env v cfg gv cfg.previous_period_max
      cfg.fallback_1 ctx hf1 with h1 | ⟨w, src, tr2, hw, h1⟩
    · simp only [h1]
      rcases attempt_fallback_slot_non_calc env v cfg gv cfg.previous_period_max
        cfg.fallback_2 ctx hf2 with h2 | ⟨w, src, tr2, hw, h2⟩
      · simp only [h2]
        rw [resolve_value_main_path env v ctx cfg gv hstatic, if_neg hex]
        simp only [h1, h2]
        exact ⟨by trivial, Nat.le_succ _⟩
      · simp only [h2]
        rw [resolve_value_main_path env v _ cfg gv hstatic]
        rw [if_pos (by rw [get_value_add_value]; exact hw)]
        refine ⟨by rw [get_value_add_value], ?_⟩
        simp only [CalculationContext.add_value]
        split_ifs
        · rw [List.filter_append, List.length_append]
          have hle : (List.filter (fun e => e.variable_name == v)
              ([⟨v, w, src⟩] : List FallbackLogEntry)).length ≤ 1 :=
            List.length_filter_le _ _
          omega
        · exact Nat.le_succ _
    · simp only [h1]
      rw [resolve_value_main_path env v _ cfg gv hstatic]
      rw [if_pos (by rw [get_value_add_value]; exact hw)]
      refine ⟨by rw [get_value_add_value], ?_⟩
      simp only [CalculationContext.add_value]
      split_ifs
      · rw [List.filter_append, List.length_append]
        have hle : (List.filter (fun e => e.variable_name == v)
            ([⟨v, w, src⟩] : List FallbackLogEntry)).length ≤ 1 :=
          List.length_filter_le _ _
        omega
      · exact Nat.le_succ _




/-- C4 counterexample.  Two concrete instances refute the claim as stated:
(1) a variable with a `calculation` fallback whose formula divides by
`{p} - 1` over the raw value `p = 100` resolves to absent on the first call
(the percentage conversion turns 100 into 1.0 and the formula divides by
zero) but to `1/99` on the second call (the tracker now marks `p`, so 100
stays 100); (2) a `client_static` variable with an override appends a
fallback-log entry on each of the two calls, so the log gains two entries
for that variable. -/
theorem resolve_value_idem_counterexample :
    ((resolve_value sampleEnvEmpty "v" sampleContext calcFallbackCfg []).1 = PyVal.none ∧
     (resolve_value sampleEnvEmpty "v"
        (resolve_value sampleEnvEmpty "v" sampleContext calcFallbackCfg []).2
        calcFallbackCfg []).1 = PyVal.num ⟨1, 99⟩ ∧
     PyVal.num ⟨1, 99⟩ ≠ PyVal.none) ∧
    ((resolve_value clientStaticEnv "w"
        (resolve_value clientStaticEnv "w" sampleContextRawW clientStaticCfg []).2
        clientStaticCfg []).2.fallback_log.filter
        (fun e => e.variable_name == "w")).length = 2 := by
  refine ⟨⟨?_, ?_, ?_⟩, ?_⟩ <;> decide

/-- C5: static override precedence.  Whenever a variable's `source_type` is
`client_static` and the per-client override store has a value for it,
`resolve_value` returns that override's type-coerced value and records it
with source `client_static` — for every context, including ones that already
hold a raw level-0 or previously calculated value for the same variable (the
override check precedes the already-resolved short-circuit). -/
theorem resolve_value_client_static (env : Env) (v : String) (ctx : CalculationContext)
    (cfg : VarConfig) (gv : PyDict) (cf : PyDict) (w : PyVal)
    (co : PyVal × ConversionTracker)
    (hstatic : pyLower (cfg.fieldStr "Source_Type" "") = "client_static")
    (hcf : env.client_variables ctx.client_id = some cf)
    (hw : cf.lookup v = some w)
    (hco : client_static_coerce w (cfg.fieldStr "Data_Type" "number") v
      ctx.conversion_tracker = co) :
    (resolve_value env v ctx cfg gv).1 = co.1 ∧
    (resolve_value env v ctx cfg gv).2.fallback_log =
      ctx.fallback_log ++ [⟨v, co.1, "client_static"⟩] ∧
    (resolve_value env v ctx cfg gv).2.calculated_values =
      dictInsert ctx.calculated_values v co.1 := by
  simp only [resolve_value]
  rw [if_pos hstatic, hcf]
  simp only [hw, hco]
  refine ⟨trivial, ?_, rfl⟩
  simp only [CalculationContext.add_value]
  rw [if_pos (by decide)]



/-- Witness for the amended C4: a `global_default` fallback resolves to the
same value on both calls and logs exactly one entry. -/
theorem resolve_value_idem_amended_witness :
    (resolve_value sampleEnvEmpty "g"
        (resolve_value sampleEnvEmpty "g" sampleContext globalDefaultCfg
          [("g", .num ⟨42, 1⟩)]).2 globalDefaultCfg [("g", .num ⟨42, 1⟩)]).1 =
      (resolve_value sampleEnvEmpty "g" sampleContext globalDefaultCfg
        [("g", .num ⟨42, 1⟩)]).1 ∧
    ((resolve_value sampleEnvEmpty "g"
        (resolve_value sampleEnvEmpty "g" sampleContext globalDefaultCfg
          [("g", .num ⟨42, 1⟩)]).2 globalDefaultCfg
        [("g", .num ⟨42, 1⟩)]).2.fallback_log.filter
      (fun e => e.variable_name == "g")).length ≤
      (sampleContext.fallback_log.filter (fun e => e.variable_name == "g")).length + 1 :=
  resolve_value_idem_amended sampleEnvEmpty "g" sampleContext globalDefaultCfg
    [("g", .num ⟨42, 1⟩)] (by decide) (by decide) (by decide)

/-- Witness for C5: the override `w = 7` wins although the context holds the
conflicting raw value `w = 5`. -/
theorem resolve_value_client_static_witness :
    (resolve_value clientStaticEnv "w" sampleContextRawW clientStaticCfg []).1 =
      PyVal.num ⟨7, 1⟩ ∧
    (resolve_value clientStaticEnv "w" sampleContextRawW clientStaticCfg []).2.fallback_log =
      sampleContextRawW.fallback_log ++ [⟨"w", .num ⟨7, 1⟩, "client_static"⟩] ∧
    (resolve_value clientStaticEnv "w" sampleContextRawW
        clientStaticCfg []).2.calculated_values =
      dictInsert sampleContextRawW.calculated_values "w" (.num ⟨7, 1⟩) :=
  resolve_value_client_static clientStaticEnv "w" sampleContextRawW clientStaticCfg []
    [("w", .num ⟨7, 1⟩)] (.num ⟨7, 1⟩) (.num ⟨7, 1⟩, ⟨[], []⟩)
    (by decide) (by decide) (by decide) (by decide)




/-- Membership in the dated insertion. -/
theorem mem_insertByDateDesc (x y : GenRecord × ℤ) (l : List (GenRecord × ℤ)) :
    y ∈ insertByDateDesc x l ↔ y = x ∨ y ∈ l := by
  induction l with
  | nil => simp [insertByDateDesc]
  | cons z zs ih =>
    unfold insertByDateDesc
    split_ifs with h
    · simp [List.mem_cons]
    · simp only [List.mem_cons, ih]
      tauto

/-- Sorting preserves membership. -/
theorem mem_sortByDateDesc (x : GenRecord × ℤ) (l : List (GenRecord × ℤ)) :
    x ∈ sortByDateDesc l ↔ x ∈ l := by
  induction l with
  | nil => simp [sortByDateDesc]
  | cons z zs ih =>
    unfold sortByDateDesc at ih ⊢
    rw [List.foldr_cons, mem_insertByDateDesc, ih, List.mem_cons]

/-- Insertion preserves the descending-date invariant. -/
theorem pairwise_insertByDateDesc (x : GenRecord × ℤ) (l : List (GenRecord × ℤ))
    (hl : l.Pairwise (fun a b => b.2 ≤ a.2)) :
    (insertByDateDesc x l).Pairwise (fun a b => b.2 ≤ a.2) := by
  induction l with
  | nil => simp [insertByDateDesc]
  | cons z zs ih =>
    rw [List.pairwise_cons] at hl
    unfold insertByDateDesc
    split_ifs with h
    · rw [List.pairwise_cons]
      refine ⟨?_, by rw [List.pairwise_cons]; exact hl⟩
      intro a ha
      rcases List.mem_cons.mp ha with rfl | ha2
      · exact le_of_lt h
      · exact le_trans (hl.1 a ha2) (le_of_lt h)
    · rw [List.pairwise_cons]
      refine ⟨?_, ih hl.2⟩
      intro a ha
      rcases (mem_insertByDateDesc x a zs).mp ha with rfl | ha2
      · exact le_of_not_lt h
      · exact hl.1 a ha2

/-- The sorted candidate list is descending by date. -/
theorem pairwise_sortByDateDesc (l : List (GenRecord × ℤ)) :
    (sortByDateDesc l).Pairwise (fun a b => b.2 ≤ a.2) := by
  induction l with
  | nil => simp [sortByDateDesc]
  | cons z zs ih => exact pairwise_insertByDateDesc z _ ih

/-- In a descending list, `find?` returns an element whose date bounds every
matching element's date. -/
theorem find_max_of_pairwise (p : GenRecord × ℤ → Bool) (l : List (GenRecord × ℤ))
    (hl : l.Pairwise (fun a b => b.2 ≤ a.2)) (x : GenRecord × ℤ)
    (hf : l.find? p = some x) :
    ∀ y ∈ l, p y = true → y.2 ≤ x.2 := by
  induction l with
  | nil => simp at hf
  | cons z zs ih =>
    rw [List.pairwise_cons] at hl
    by_cases hz : p z = true
    · rw [List.find?_cons_of_pos _ hz, Option.some.injEq] at hf
      subst hf
      intro y hy hpy
      rcases List.mem_cons.mp hy with rfl | hy2
      · exact le_refl _
      · exact hl.1 y hy2
    · rw [List.find?_cons_of_neg _ (by simpa using hz)] at hf
      intro y hy hpy
      rcases List.mem_cons.mp hy with rfl | hy2
      · exact absurd hpy hz
      · exact ih hl.2 hf y hy2 hpy



/-- C8 (amended): the `previous_period` fallback returns the value of the
most recent matching record — same client, full period, within the 30-day
per-month lookback window, and strictly before the current period's START
when a start date is available (falling back to the period's end otherwise):
if a value is returned, it belongs to a candidate record whose date bounds
every other candidate carrying a non-null value; if no value is returned, no
candidate carries one; and when a value is found, `apply_fallback` records
it with source `previous_period(Nmo)`. -/
theorem find_previous_period_amended (env : Env) (v cid : String) (de mm : ℤ)
    (ds : Option ℤ) :
    ((find_previous_period_value env v cid de mm ds ≠ .none →
      ∃ rd ∈ prevPeriodCandidates env cid de mm ds,
        (rd.1.fields.lookup v).getD .none = find_previous_period_value env v cid de mm ds ∧
        ∀ rd2 ∈ prevPeriodCandidates env cid de mm ds,
          (rd2.1.fields.lookup v).getD .none ≠ .none → rd2.2 ≤ rd.2) ∧
     (find_previous_period_value env v cid de mm ds = .none →
      ∀ rd ∈ prevPeriodCandidates env cid de mm ds,
        (rd.1.fields.lookup v).getD .none = .none)) ∧
    (∀ (ctx : CalculationContext) (gv : PyDict),
      extract_lookup_value ctx.date_end = .date de →
      ctx.client_id = cid →
      (match extract_lookup_value ctx.date_start with
        | .date d => some d
        | _ => Option.none) = ds →
      find_previous_period_value env v cid de mm ds ≠ .none →
      apply_fallback env (some "previous_period") v ctx gv mm =
        (find_previous_period_value env v cid de mm ds,
         "previous_period(" ++ toString mm ++ "mo)")) := by
  constructor
  · constructor
    · intro hne
      simp only [find_previous_period_value] at hne ⊢
      cases hf : (sortByDateDesc (prevPeriodCandidates env cid de mm ds)).find?
          (fun rd => !(((rd.1.fields.lookup v).getD .none) == .none)) with
      | none => simp only [hf] at hne; exact absurd rfl hne
      | some rd =>
        simp only [hf]
        refine ⟨rd, (mem_sortByDateDesc _ _).mp (List.mem_of_find?_eq_some hf), rfl, ?_⟩
        intro rd2 h2 hv2
        exact find_max_of_pairwise _ _ (pairwise_sortByDateDesc _) rd hf rd2
          ((mem_sortByDateDesc _ _).mpr h2) (by simpa using hv2)
    · intro hz rd hrd
      simp only [find_previous_period_value] at hz
      cases hf : (sortByDateDesc (prevPeriodCandidates env cid de mm ds)).find?
          (fun rd => !(((rd.1.fields.lookup v).getD .none) == .none)) with
      | none =>
        have := List.find?_eq_none.mp hf rd ((mem_sortByDateDesc _ _).mpr hrd)
        simpa using this
      | some rd2 =>
        simp only [hf] at hz
        have hp := List.find?_some hf
        rw [hz] at hp
        simp at hp
  · intro ctx gv hde hcid hds hne
    simp only [apply_fallback, Option.getD]
    rw [if_neg (by decide), if_neg (by decide), if_pos trivial]
    simp only [hde, hcid, hds]
    rw [if_pos hne]



/-- C8 counterexample.  A full-month record of the same client dated day 166
— within the lookback window and strictly before the current period's end
(day 181) — carries the value 50 and is the most recent such record, so the
claim's rule (see `spec_previous_period_value`) selects 50; but the code
compares against the period's START (day 152), excludes that record, and
returns the older record's value 40. -/
theorem find_previous_period_counterexample :
    spec_previous_period_value prevPeriodEnv "x" "c1" 181 6 = .num ⟨50, 1⟩ ∧
    find_previous_period_value prevPeriodEnv "x" "c1" 181 6 (some 152) = .num ⟨40, 1⟩ ∧
    PyVal.num ⟨40, 1⟩ ≠ PyVal.num ⟨50, 1⟩ := by
  refine ⟨?_, ?_, ?_⟩ <;> decide

/-- Witness for the amended C8 at the concrete store: the returned value 40
belongs to the most recent candidate, and `apply_fallback` labels it
`previous_period(6mo)`. -/
theorem find_previous_period_amended_witness :
    find_previous_period_value prevPeriodEnv "x" "c1" 181 6 (some 152) ≠ .none ∧
    (∃ rd ∈ prevPeriodCandidates prevPeriodEnv "c1" 181 6 (some 152),
      (rd.1.fields.lookup "x").getD .none =
        find_previous_period_value prevPeriodEnv "x" "c1" 181 6 (some 152) ∧
      ∀ rd2 ∈ prevPeriodCandidates prevPeriodEnv "c1" 181 6 (some 152),
        (rd2.1.fields.lookup "x").getD .none ≠ .none → rd2.2 ≤ rd.2) ∧
    apply_fallback prevPeriodEnv (some "previous_period") "x" sampleContext [] 6 =
      (find_previous_period_value prevPeriodEnv "x" "c1" 181 6 (some 152),
       "previous_period(" ++ toString (6 : ℤ) ++ "mo)") :=
  ⟨by decide,
   (find_previous_period_amended prevPeriodEnv "x" "c1" 181 6 (some 152)).1.1 (by decide),
   (find_previous_period_amended prevPeriodEnv "x" "c1" 181 6 (some 152)).2 sampleContext []
     (by decide) (by decide) (by decide) (by decide)⟩


/-- `add_value` only touches `calculated_values` and `fallback_log`: the
error and warning lists are untouched. -/
theorem add_value_preserves_logs (ctx : CalculationContext) (v : String) (w : PyVal)
    (src : String) :
    (ctx.add_value v w src).errors = ctx.errors ∧
    (ctx.add_value v w src).warnings = ctx.warnings := by
  unfold CalculationContext.add_value
  exact ⟨rfl, rfl⟩

/-- A fallback slot never appends to the error or warning lists. -/
theorem attempt_fallback_slot_preserves (env : Env) (v : String) (cfg : VarConfig)
    (gv : PyDict) (mp : ℤ) (slot : Option String) (ctx : CalculationContext) :
    (slotCtx (attempt_fallback_slot env v cfg gv mp slot ctx)).errors = ctx.errors ∧
    (slotCtx (attempt_fallback_slot env v cfg gv mp slot ctx)).warnings = ctx.warnings := by
  simp only [attempt_fallback_slot]
  split_ifs <;>
    first
      | exact ⟨rfl, rfl⟩
      | (split <;> simp [slotCtx, CalculationContext.add_value])

/-- `resolve_value` never appends to the error or warning lists: warnings
and errors around resolution are the caller's responsibility. -/
theorem resolve_value_preserves_logs (env : Env) (v : String) (ctx : CalculationContext)
    (cfg : VarConfig) (gv : PyDict) :
    (resolve_value env v ctx cfg gv).2.errors = ctx.errors ∧
    (resolve_value env v ctx cfg gv).2.warnings = ctx.warnings := by
  simp only [resolve_value]
  split
  · rename_i r hr
    revert hr
    split_ifs with h1
    · split
      · split
        · intro hr
          cases hr
          exact add_value_preserves_logs _ _ _ _
        · intro hr; cases hr
      · intro hr; cases hr
    · intro hr; cases hr
  · split_ifs with h2
    · exact ⟨rfl, rfl⟩
    · cases hs1 : attempt_fallback_slot env v cfg gv cfg.previous_period_max
        cfg.fallback_1 ctx with
      | error r =>
        simp only [hs1]
        have := attempt_fallback_slot_preserves env v cfg gv cfg.previous_period_max
          cfg.fallback_1 ctx
        rw [hs1] at this
        exact this
      | ok c2 =>
        simp only [hs1]
        have hp1 := attempt_fallback_slot_preserves env v cfg gv cfg.previous_period_max
          cfg.fallback_1 ctx
        rw [hs1] at hp1
        cases hs2 : attempt_fallback_slot env v cfg gv cfg.previous_period_max
          cfg.fallback_2 c2 with
        | error r =>
          simp only [hs2]
          have hp2 := attempt_fallback_slot_preserves env v cfg gv cfg.previous_period_max
            cfg.fallback_2 c2
          rw [hs2] at hp2
          exact ⟨hp2.1.trans hp1.1, hp2.2.trans hp1.2⟩
        | ok c3 =>
          simp only [hs2]
          have hp2 := attempt_fallback_slot_preserves env v cfg gv cfg.previous_period_max
            cfg.fallback_2 c2
          rw [hs2] at hp2
          exact ⟨hp2.1.trans hp1.1, hp2.2.trans hp1.2⟩

/-- C7: YTD January boundary.  For every context whose report month is 1,
`calculate_ytd_value` returns an empty per-month detail map, the current
base-variable value when that value is present, and the string `No Data`
when it is absent. -/
theorem calculate_ytd_value_january (env : Env) (context : CalculationContext)
    (h : context.report_month = some 1) :
    (calculate_ytd_value env context "hhs").2.months = [] ∧
    (context.get_value "hhs" ≠ .none →
      (calculate_ytd_value env context "hhs").1 = context.get_value "hhs") ∧
    (context.get_value "hhs" = .none →
      (calculate_ytd_value env context "hhs").1 = .str "No Data") := by
  have hpm : (match context.report_month with
      | some m => if m = 0 then ([] : List ℤ) else intRange 1 m
      | Option.none => []) = ([] : List ℤ) := by
    rw [h]; rfl
  by_cases hc : context.get_value "hhs" = .none
  · simp only [calculate_ytd_value, hpm]
    rw [if_pos (by rfl), if_neg (by simp [hc])]
    exact ⟨rfl, fun hne => absurd hc hne, fun _ => rfl⟩
  · simp only [calculate_ytd_value, hpm]
    rw [if_pos (by rfl), if_pos hc]
    exact ⟨rfl, fun _ => rfl, fun hn => absurd hn hc⟩

/-- Witness for C7: a January context carrying `hhs = 42` gets YTD `42` with
an empty month map. -/
theorem calculate_ytd_value_january_witness :
    (calculate_ytd_value sampleEnvEmpty januaryContext "hhs").2.months = [] ∧
    (calculate_ytd_value sampleEnvEmpty januaryContext "hhs").1 = .num ⟨42, 1⟩ :=
  ⟨(calculate_ytd_value_january sampleEnvEmpty januaryContext (by decide)).1,
   by
    have h2 := (calculate_ytd_value_january sampleEnvEmpty januaryContext
      (by decide)).2.1 (by decide)
    rw [h2]; decide⟩

/-- C10: a `None` value vacuously passes hard validation.  For every rule
string, `validate_value .none rules` succeeds, and for non-empty rules the
result is exactly `(true, "")` — so a variable stored as `None` can never
produce a hard-validation error. -/
theorem validate_value_none_passes :
    (∀ rules : String, rules ≠ "" → validate_value .none rules = (true, "")) ∧
    (∀ rules : String, (validate_value .none rules).1 = true) := by
  constructor
  · intro rules _
    unfold validate_value
    rw [if_pos (Or.inr rfl)]
  · intro rules
    unfold validate_value
    rw [if_pos (Or.inr rfl)]

/-- Witness for C10: `None` passes both the `not_empty` rule and a range
rule. -/
theorem validate_value_none_passes_witness :
    validate_value .none "not_empty" = (true, "") ∧
    (validate_value .none ">= 0 AND <= 1").1 = true :=
  ⟨validate_value_none_passes.1 "not_empty" (by decide),
   validate_value_none_passes.2 ">= 0 AND <= 1"⟩

/-- C9: level-0 missing data is non-fatal.  The boolean returned by
`calculate_all_variables` is exactly `errors.isEmpty` on the final context,
and a level-0 variable that resolves to absent appends one warning and no
error. -/
theorem calculate_all_variables_level0_policy :
    (∀ env ctx dep rv gv,
      (calculate_all_variables env ctx dep rv gv).1 =
        (calculate_all_variables env ctx dep rv gv).2.errors.isEmpty) ∧
    (∀ env gv rv ctx var cfg,
      List.lookup var rv = some cfg →
      (resolve_value env var ctx cfg gv).1 = .none →
      (process_level0_var env gv rv ctx var).warnings =
        ctx.warnings ++ ["Level 0 variable \x27" ++ var ++ "\x27 has no value"] ∧
      (process_level0_var env gv rv ctx var).errors = ctx.errors) := by
  constructor
  · intro env ctx dep rv gv
    rfl
  · intro env gv rv ctx var cfg hcfg hnone
    have hpres := resolve_value_preserves_logs env var ctx cfg gv
    simp only [process_level0_var, hcfg]
    rw [if_neg (by simp [hnone])]
    exact ⟨by rw [hpres.2], hpres.1⟩

/-- Witness for C9: the fallback-free variable `x` resolves to absent, the
level-0 step appends exactly the warning and no error, and the run's
success boolean equals `errors.isEmpty`. -/
theorem calculate_all_variables_level0_policy_witness :
    List.lookup "x" rvX = some noFallbackCfg ∧
    (resolve_value sampleEnvEmpty "x" sampleContext noFallbackCfg []).1 = .none ∧
    (process_level0_var sampleEnvEmpty [] rvX sampleContext "x").warnings =
      sampleContext.warnings ++ ["Level 0 variable \x27x\x27 has no value"] ∧
    (process_level0_var sampleEnvEmpty [] rvX sampleContext "x").errors =
      sampleContext.errors ∧
    (calculate_all_variables sampleEnvEmpty sampleContext depL0 rvX []).1 =
      (calculate_all_variables sampleEnvEmpty sampleContext depL0 rvX []).2.errors.isEmpty :=
  ⟨by decide, by decide,
   (calculate_all_variables_level0_policy.2 sampleEnvEmpty [] rvX sampleContext "x"
     noFallbackCfg (by decide) (by decide)).1,
   (calculate_all_variables_level0_policy.2 sampleEnvEmpty [] rvX sampleContext "x"
     noFallbackCfg (by decide) (by decide)).2,
   calculate_all_variables_level0_policy.1 sampleEnvEmpty sampleContext depL0 rvX []⟩

end CalcEngine
